import Mathlib

/-!
ConnectionSocket (Telegram.Api.Native).

A shallow embedding of `ConnectionSocket.cpp`: the asynchronous, non-blocking
TCP connection of the Telegram native API layer.

* Bytes are natural numbers; buffers are lists of bytes.
* `m_socket` is `none` for `INVALID_SOCKET`.
* Every call of a method receives one `Env`: the answers the operating system
  and the consumer give to the calls that the method makes.  Each method calls
  every operating-system function at most once, except `recv`, whose answers
  form a list.
* A method returns an `Outcome`: its `HRESULT`, the object afterwards, and the
  ordered list of the externally visible effects of the call.
* Consumer callbacks are taken to return an `HRESULT` without re-entering the
  object; the critical section of `OnEvent` is not modelled (one call at a time).
-/

namespace Telegram.Api.Native

/-! ## Platform constants (Windows SDK values) -/

def NO_ERROR : Int := 0
def SOCKET_ERROR : Int := -1
def WSAEWOULDBLOCK : Int := 10035
def ERROR_TIMEOUT : Int := 1460
def ERROR_INVALID_STATE : Int := 5023
def WAIT_OBJECT_0 : Nat := 0
def S_OK : Int := 0
def S_FALSE : Int := 1

def FD_READ_BIT : Nat := 0
def FD_WRITE_BIT : Nat := 1
def FD_CONNECT_BIT : Nat := 4
def FD_CLOSE_BIT : Nat := 5
def FD_READ : Nat := 1
def FD_WRITE : Nat := 2
def FD_CONNECT : Nat := 16
def FD_CLOSE : Nat := 32

def AF_INET : Nat := 2
def AF_INET6 : Nat := 23

/-- The `HRESULT_FROM_WIN32` of winerror.h: values `≤ 0` pass through, a positive code keeps
its low 16 bits under facility 7 with the severity bit set (read back as a signed 32-bit
value). -/
def HRESULT_FROM_WIN32 (x : Int) : Int :=
  if x ≤ 0 then x else (x % 65536 + 0x80070000) - 2 ^ 32

/-- The `E_NOT_VALID_STATE` of winerror.h, `HRESULT_FROM_WIN32(ERROR_INVALID_STATE)`. -/
def E_NOT_VALID_STATE : Int := HRESULT_FROM_WIN32 ERROR_INVALID_STATE

/-- The `FAILED` test of winerror.h: a negative `HRESULT`. -/
def FAILED (hr : Int) : Prop := hr < 0

instance (hr : Int) : Decidable (FAILED hr) := by unfold FAILED; infer_instance

/-! ## Constants of ConnectionSocket.cpp -/

def SOCKET_SEND_BUFFER_SIZE : Nat := 0
def SOCKET_RECEIVE_BUFFER_SIZE : Nat := 1024 * 128
def SOCKET_CLOSE_NONE : Nat := 0
def SOCKET_CLOSE_RAISEEVENT : Nat := 1
def SOCKET_CLOSE_JOINTHREAD : Nat := 2
def SOCKET_CLOSE_DEFAULT : Nat := SOCKET_CLOSE_RAISEEVENT ||| SOCKET_CLOSE_JOINTHREAD

/-! ## Data model -/

structure FILETIME where
  dwLowDateTime : Nat
  dwHighDateTime : Nat
deriving DecidableEq, Repr

structure ServerEndpoint where
  Address : String
  Port : Nat
deriving DecidableEq, Repr

/-- The fields of a `ConnectionSocket`.  `m_receiveBuffer` and `m_socketEvent` record whether
the scratch buffer is allocated and whether the event handle is valid;
`m_socketConnectedEvent` is `none` without a handle and `some b` for a manual-reset event
whose signalled state is `b`. -/
structure ConnectionSocket where
  m_socket : Option Nat
  m_timeout : FILETIME
  m_sendBuffer : List Nat
  m_receiveBuffer : Bool
  m_socketEvent : Bool
  m_socketConnectedEvent : Option Bool
deriving DecidableEq, Repr

/-- Externally visible effects of a call, in the order they happen. -/
inductive Effect where
  | closesocket (fd : Nat)
  | shutdown (fd : Nat)
  | AttachToThreadpool
  | DetachFromThreadpool (join : Bool)
  | SetThreadpoolWait (timeout : FILETIME)
  | SetEvent
  | send (offered : List Nat) (ret : Int)
  | recv (ret : Int)
  | OnSocketConnected
  | OnDataReceived (chunk : List Nat)
  | OnSocketDisconnected (wsaError : Int)
deriving DecidableEq, Repr

/-- Answer of an operating-system call that either succeeds or fails leaving a last error. -/
inductive OsResult where
  | ok
  | fail (wsaLastError : Int)
deriving DecidableEq, Repr

/-- Answer of `socket`: a descriptor, or `INVALID_SOCKET` with a last error. -/
inductive SocketResult where
  | handle (fd : Nat)
  | invalid (wsaLastError : Int)
deriving DecidableEq, Repr

/-- Answer of `send`: the number of bytes accepted, or `SOCKET_ERROR` with a last error. -/
inductive SendResult where
  | sent (n : Nat)
  | fail (wsaLastError : Int)
deriving DecidableEq, Repr

/-- The `int` returned by `send`. -/
def SendResult.ret : SendResult → Int
  | .sent n => (n : Int)
  | .fail _ => SOCKET_ERROR

/-- The value of `WSAGetLastError()` after `send`. -/
def SendResult.wsaLastError : SendResult → Int
  | .sent _ => NO_ERROR
  | .fail e => e

/-- Answer of `recv`: the bytes placed in the scratch buffer (none: the peer closed), or
`SOCKET_ERROR` with a last error. -/
inductive RecvResult where
  | bytes (chunk : List Nat)
  | fail (wsaLastError : Int)
deriving DecidableEq, Repr

structure WSANETWORKEVENTS where
  lNetworkEvents : Nat
  iErrorCode : Nat → Int

/-- Answer of `WSAEnumNetworkEvents`. -/
inductive EnumResult where
  | ok (networkEvents : WSANETWORKEVENTS)
  | fail (wsaLastError : Int)

/-- What the surroundings answer during one call of a method.

`WSAGetLastHRESULT`, `GetLastHRESULT` and `WIN32_FROM_HRESULT` come from `Helpers\COMHelper.h`
and `AttachToThreadpool` from the base class; they are kept as parameters (the first two take
the pending last-error code).  `recv` lists the answers of successive `recv` calls; past its
end the socket has nothing more to read and `recv` reports `WSAEWOULDBLOCK`.  `outside j` is
the byte found at offset `j` from `m_sendBuffer.data()` when `j` lies outside the vector. -/
structure Env where
  WSAGetLastHRESULT : Int → Int
  GetLastHRESULT : Int → Int
  WIN32_FROM_HRESULT : Int → Int
  InetPton : Nat → String → OsResult
  CreateEvent : OsResult
  WSACreateEvent : OsResult
  socket : Nat → SocketResult
  AttachToThreadpool : Int
  WSAEventSelect : OsResult
  connect : OsResult
  shutdown : OsResult
  closesocket : OsResult
  send : SendResult
  recv : List RecvResult
  WSAEnumNetworkEvents : EnumResult
  outside : Int → Nat
  OnSocketConnected : Int
  OnDataReceived : Nat → List Nat → Int
  OnSocketDisconnected : Int → Int

structure Outcome where
  result : Int
  state : ConnectionSocket
  effects : List Effect
deriving DecidableEq, Repr

/-! ## Teardown -/

/-- `ConnectionSocket::CloseSocket(int wsaError, BYTE flags)`. -/
def CloseSocket (env : Env) (self : ConnectionSocket) (wsaError : Int) (flags : Nat) : Outcome :=
  match self.m_socket with
  | none => ⟨E_NOT_VALID_STATE, self, []⟩
  | some fd =>
    match env.closesocket with
    | .fail e => ⟨env.WSAGetLastHRESULT e, self, [.closesocket fd]⟩
    | .ok =>
      let closed : ConnectionSocket :=
        { self with
          m_socket := none
          m_socketEvent := false
          m_socketConnectedEvent := none
          m_sendBuffer := []
          m_receiveBuffer := false }
      let fx := [Effect.closesocket fd,
                 Effect.DetachFromThreadpool (decide (flags &&& SOCKET_CLOSE_JOINTHREAD ≠ 0))]
      if flags &&& SOCKET_CLOSE_RAISEEVENT ≠ 0 then
        ⟨env.OnSocketDisconnected wsaError, closed, fx ++ [.OnSocketDisconnected wsaError]⟩
      else
        ⟨S_OK, closed, fx⟩

/-- `ConnectionSocket::GetLastErrorAndCloseSocket(BYTE flags)`; `wsaLastError` is what
`WSAGetLastError()` returns on entry. -/
def GetLastErrorAndCloseSocket (env : Env) (self : ConnectionSocket) (wsaLastError : Int)
    (flags : Nat) : Outcome :=
  let c := CloseSocket env self wsaLastError flags
  ⟨HRESULT_FROM_WIN32 wsaLastError, c.state, c.effects⟩

/-- `ConnectionSocket::Close()`. -/
def Close (env : Env) (self : ConnectionSocket) : Outcome :=
  CloseSocket env self NO_ERROR SOCKET_CLOSE_JOINTHREAD

/-! ## Connect and disconnect -/

/-- `ConnectionSocket::ConnectSocket(connectionManager, endpoint, ipv6, timeoutMs)`. -/
def ConnectSocket (env : Env) (self : ConnectionSocket) (endpoint : ServerEndpoint)
    (ipv6 : Bool) (timeoutMs : Nat) : Outcome :=
  match self.m_socket with
  | some _ => ⟨E_NOT_VALID_STATE, self, []⟩
  | none =>
    -- timeout.QuadPart = timeoutMs * -10000LL, stored in an unsigned 64-bit field
    let quadPart : Nat := (((timeoutMs : Int) * (-10000)) % 2 ^ 64).toNat
    let s1 : ConnectionSocket :=
      { self with m_timeout := ⟨quadPart % 2 ^ 32, quadPart / 2 ^ 32⟩ }
    let family := if ipv6 then AF_INET6 else AF_INET
    match env.InetPton family endpoint.Address with
    | .fail e => ⟨env.WSAGetLastHRESULT e, s1, []⟩
    | .ok =>
      let s2 : ConnectionSocket :=
        { s1 with
          m_sendBuffer := s1.m_sendBuffer.take SOCKET_SEND_BUFFER_SIZE
          m_receiveBuffer := true }
      match env.CreateEvent with
      | .fail e => ⟨env.GetLastHRESULT e, { s2 with m_socketConnectedEvent := none }, []⟩
      | .ok =>
        let s3 : ConnectionSocket := { s2 with m_socketConnectedEvent := some false }
        match env.WSACreateEvent with
        | .fail e => ⟨env.WSAGetLastHRESULT e, { s3 with m_socketEvent := false }, []⟩
        | .ok =>
          let s4 : ConnectionSocket := { s3 with m_socketEvent := true }
          match env.socket family with
          | .invalid e =>
            GetLastErrorAndCloseSocket env { s4 with m_socket := none } e SOCKET_CLOSE_NONE
          | .handle fd =>
            let s5 : ConnectionSocket := { s4 with m_socket := some fd }
            let result := env.AttachToThreadpool
            if FAILED result then
              let c := CloseSocket env s5 (env.WIN32_FROM_HRESULT result) SOCKET_CLOSE_NONE
              ⟨result, c.state, Effect.AttachToThreadpool :: c.effects⟩
            else
              let armed := [Effect.AttachToThreadpool, Effect.SetThreadpoolWait s5.m_timeout]
              match env.WSAEventSelect with
              | .fail e =>
                let c := GetLastErrorAndCloseSocket env s5 e SOCKET_CLOSE_JOINTHREAD
                ⟨c.result, c.state, armed ++ c.effects⟩
              | .ok =>
                match env.connect with
                | .ok => ⟨S_OK, s5, armed⟩
                | .fail wsaLastError =>
                  if wsaLastError ≠ WSAEWOULDBLOCK then
                    let c := CloseSocket env s5 wsaLastError SOCKET_CLOSE_JOINTHREAD
                    ⟨HRESULT_FROM_WIN32 wsaLastError, c.state, armed ++ c.effects⟩
                  else
                    ⟨S_OK, s5, armed⟩

/-- `ConnectionSocket::DisconnectSocket(boolean immediate)`. -/
def DisconnectSocket (env : Env) (self : ConnectionSocket) (immediate : Bool) : Outcome :=
  if immediate then
    CloseSocket env self NO_ERROR SOCKET_CLOSE_RAISEEVENT
  else
    match self.m_socket with
    | none => ⟨E_NOT_VALID_STATE, self, []⟩
    | some fd =>
      match env.shutdown with
      | .fail e => ⟨env.WSAGetLastHRESULT e, self, [.shutdown fd]⟩
      | .ok => ⟨S_OK, self, [.shutdown fd]⟩

/-! ## Sending -/

/-- `ConnectionSocket::SendData(BYTE const* buffer, UINT32 length)`, with `length` the length
of `buffer`.  The result is `none` when `WaitForSingleObject(..., INFINITE)` does not return:
the connect event exists and is not signalled. -/
def SendData (env : Env) (self : ConnectionSocket) (buffer : List Nat) : Option Outcome :=
  match self.m_socket with
  | none => some ⟨E_NOT_VALID_STATE, self, []⟩
  | some _ =>
    if self.m_socketConnectedEvent = some false then none
    else
      let length : Nat := buffer.length
      let bytesSent : Int := env.send.ret
      let fx := [Effect.send buffer bytesSent]
      if bytesSent = SOCKET_ERROR then
        let wsaLastError := env.send.wsaLastError
        if wsaLastError ≠ WSAEWOULDBLOCK then
          some ⟨HRESULT_FROM_WIN32 wsaLastError, self, fx⟩
        else
          some ⟨S_OK, self, fx⟩
      else if (bytesSent % 2 ^ 32).toNat < length then
        -- UINT32 arithmetic
        let remainingSize : Nat := (((length : Int) - bytesSent) % 2 ^ 32).toNat
        -- resize(availableSize + remainingSize), then
        -- CopyMemory(m_sendBuffer.data() + availableSize, buffer, remainingSize)
        some ⟨S_OK, { self with m_sendBuffer := self.m_sendBuffer ++ buffer.take remainingSize }, fx⟩
      else
        some ⟨S_OK, self, fx⟩

/-! ## The event handler -/

/-- The byte at offset `j` from `m_sendBuffer.data()`. -/
def byteAt (env : Env) (buf : List Nat) (j : Int) : Nat :=
  if 0 ≤ j ∧ j < (buf.length : Int) then buf.getD j.toNat 0 else env.outside j

/-- `MoveMemory(data, data + sentBytes, remainingBytes)` followed by `resize(remainingBytes)`:
the first `size()` positions hold what was moved, positions the resize adds are
value-initialised. -/
def moveAndResize (env : Env) (buf : List Nat) (sentBytes : Int) (remainingBytes : Nat) :
    List Nat :=
  (List.range remainingBytes).map fun i =>
    if i < buf.length then byteAt env buf ((i : Int) + sentBytes) else 0

/-- How a block inside the `do { ... } while (false)` of `OnEvent` ends: control falls through
to the next statement, a `break` leaves the loop with `wsaLastError`, or `OnEvent` returns. -/
inductive Step where
  | next (self : ConnectionSocket) (fx : List Effect)
  | brk (wsaLastError : Int) (self : ConnectionSocket) (fx : List Effect)
  | ret (o : Outcome)

/-- The effects `fx` happened before the step. -/
def Step.after (fx : List Effect) : Step → Step
  | .next s t => .next s (fx ++ t)
  | .brk e s t => .brk e s (fx ++ t)
  | .ret o => .ret ⟨o.result, o.state, fx ++ o.effects⟩

/-- Sequencing of blocks: the next block runs only when the previous one fell through. -/
def Step.andThen (st : Step) (f : ConnectionSocket → Step) : Step :=
  match st with
  | .next s fx => (f s).after fx
  | .brk e s fx => .brk e s fx
  | .ret o => .ret o

/-- The `FD_CONNECT` block of `OnEvent`. -/
def connectStep (env : Env) (networkEvents : WSANETWORKEVENTS) (self : ConnectionSocket) : Step :=
  if networkEvents.lNetworkEvents &&& FD_CONNECT ≠ 0 then
    let wsaLastError := networkEvents.iErrorCode FD_CONNECT_BIT
    if wsaLastError ≠ NO_ERROR then .brk wsaLastError self []
    else
      let s1 : ConnectionSocket :=
        { self with m_socketConnectedEvent := self.m_socketConnectedEvent.map fun _ => true }
      let result := env.OnSocketConnected
      if FAILED result then
        let c := CloseSocket env s1 (env.WIN32_FROM_HRESULT result) SOCKET_CLOSE_RAISEEVENT
        .ret ⟨result, c.state, [Effect.SetEvent, Effect.OnSocketConnected] ++ c.effects⟩
      else
        .next s1 [Effect.SetEvent, Effect.OnSocketConnected]
  else .next self []

/-- The `FD_WRITE` block of `OnEvent`; `size_t` is 64 bits wide. -/
def writeStep (env : Env) (networkEvents : WSANETWORKEVENTS) (self : ConnectionSocket) : Step :=
  if networkEvents.lNetworkEvents &&& FD_WRITE ≠ 0 then
    let wsaLastError := networkEvents.iErrorCode FD_WRITE_BIT
    if wsaLastError ≠ NO_ERROR then .brk wsaLastError self []
    else
      let availableBytes : Nat := self.m_sendBuffer.length
      if availableBytes > 0 then
        let sentBytes : Int := env.send.ret
        let fx := [Effect.send self.m_sendBuffer sentBytes]
        if sentBytes = SOCKET_ERROR ∧ env.send.wsaLastError ≠ WSAEWOULDBLOCK then
          .brk env.send.wsaLastError self fx
        else
          let remainingBytes : Nat := (((availableBytes : Int) - sentBytes) % 2 ^ 64).toNat
          .next { self with
                  m_sendBuffer := moveAndResize env self.m_sendBuffer sentBytes remainingBytes } fx
      else .next self []
  else .next self []

/-- The `while ((receivedBytes = recv(...)) > 0)` loop of the `FD_READ` block together with the
test that follows it; `i` counts the chunks already handed to `OnDataReceived`. -/
def drain (env : Env) (self : ConnectionSocket) : Nat → List RecvResult → Step
  | _, [] => .next self [Effect.recv SOCKET_ERROR]
  | _, .fail wsaLastError :: _ =>
    if wsaLastError ≠ WSAEWOULDBLOCK then .brk wsaLastError self [Effect.recv SOCKET_ERROR]
    else .next self [Effect.recv SOCKET_ERROR]
  | i, .bytes chunk :: rest =>
    let receivedBytes : Int := (chunk.length : Int)
    if receivedBytes > 0 then
      let result := env.OnDataReceived i chunk
      let fx := [Effect.recv receivedBytes, Effect.OnDataReceived chunk]
      if FAILED result then
        let c := CloseSocket env self (env.WIN32_FROM_HRESULT result) SOCKET_CLOSE_RAISEEVENT
        .ret ⟨result, c.state, fx ++ c.effects⟩
      else
        (drain env self (i + 1) rest).after fx
    else .next self [Effect.recv receivedBytes]

/-- The `FD_READ` block of `OnEvent`. -/
def readStep (env : Env) (networkEvents : WSANETWORKEVENTS) (self : ConnectionSocket) : Step :=
  if networkEvents.lNetworkEvents &&& FD_READ ≠ 0 then
    let wsaLastError := networkEvents.iErrorCode FD_READ_BIT
    if wsaLastError ≠ NO_ERROR then .brk wsaLastError self []
    else drain env self 0 env.recv
  else .next self []

/-- What follows the blocks: the re-arm and `return S_OK` at the end of the loop body, or the
teardown after the loop that a `break` reaches. -/
def finish (env : Env) : Step → Outcome
  | .next s fx => ⟨S_OK, s, fx ++ [Effect.SetThreadpoolWait s.m_timeout]⟩
  | .brk wsaLastError s fx =>
    let c := CloseSocket env s wsaLastError SOCKET_CLOSE_RAISEEVENT
    ⟨HRESULT_FROM_WIN32 wsaLastError, c.state, fx ++ c.effects⟩
  | .ret o => o

/-- `ConnectionSocket::OnEvent(callbackInstance, waitResult)`. -/
def OnEvent (env : Env) (self : ConnectionSocket) (waitResult : Nat) : Outcome :=
  if waitResult ≠ WAIT_OBJECT_0 then
    CloseSocket env self ERROR_TIMEOUT SOCKET_CLOSE_RAISEEVENT
  else
    match self.m_socket with
    | none => ⟨S_FALSE, self, []⟩
    | some _ =>
      match env.WSAEnumNetworkEvents with
      | .fail e => GetLastErrorAndCloseSocket env self e SOCKET_CLOSE_RAISEEVENT
      | .ok networkEvents =>
        if networkEvents.lNetworkEvents &&& FD_CLOSE ≠ 0 then
          CloseSocket env self (networkEvents.iErrorCode FD_CLOSE_BIT) SOCKET_CLOSE_RAISEEVENT
        else
          finish env
            (((connectStep env networkEvents self).andThen
                (writeStep env networkEvents)).andThen
              (readStep env networkEvents))

/-! ## Observations on the effects of a call -/

/-- The chunks handed to `OnDataReceived`, in order. -/
def deliveredChunks : List Effect → List (List Nat)
  | [] => []
  | .OnDataReceived chunk :: fx => chunk :: deliveredChunks fx
  | _ :: fx => deliveredChunks fx

/-- The reasons handed to `OnSocketDisconnected`, in order. -/
def disconnects : List Effect → List Int
  | [] => []
  | .OnSocketDisconnected wsaError :: fx => wsaError :: disconnects fx
  | _ :: fx => disconnects fx

/-- The timeouts of the `SetThreadpoolWait` calls, in order. -/
def rearms : List Effect → List FILETIME
  | [] => []
  | .SetThreadpoolWait timeout :: fx => timeout :: rearms fx
  | _ :: fx => rearms fx

/-- The values returned by the `recv` calls, in order. -/
def recvReturns : List Effect → List Int
  | [] => []
  | .recv ret :: fx => ret :: recvReturns fx
  | _ :: fx => recvReturns fx

/-- The consumer callbacks among the effects. -/
def callbacks : List Effect → List Effect
  | [] => []
  | .OnSocketConnected :: fx => .OnSocketConnected :: callbacks fx
  | .OnDataReceived chunk :: fx => .OnDataReceived chunk :: callbacks fx
  | .OnSocketDisconnected wsaError :: fx => .OnSocketDisconnected wsaError :: callbacks fx
  | _ :: fx => callbacks fx

/-- The bytes the kernel accepted, in order of acceptance: of every `send` that returned
`n ≥ 0`, the first `n` bytes offered. -/
def acceptedBytes : List Effect → List Nat
  | [] => []
  | .send offered ret :: fx => offered.take ret.toNat ++ acceptedBytes fx
  | _ :: fx => acceptedBytes fx

/-- The effects of a block, however it ends. -/
def Step.effects : Step → List Effect
  | .next _ fx => fx
  | .brk _ _ fx => fx
  | .ret o => o.effects

/-- The effects of a drain loop that receives the chunks `rs` and hands each to
`OnDataReceived`. -/
def drainEffects : List (List Nat) → List Effect
  | [] => []
  | r :: rs => Effect.recv (r.length : Int) :: Effect.OnDataReceived r :: drainEffects rs

/-- The signalling of the connect event and the `OnSocketConnected` calls among the effects. -/
def gateEffects : List Effect → List Effect
  | [] => []
  | .SetEvent :: fx => .SetEvent :: gateEffects fx
  | .OnSocketConnected :: fx => .OnSocketConnected :: gateEffects fx
  | _ :: fx => gateEffects fx

/-- The `send` and `recv` calls among the effects. -/
def transfers : List Effect → List Effect
  | [] => []
  | .send offered ret :: fx => .send offered ret :: transfers fx
  | .recv ret :: fx => .recv ret :: transfers fx
  | _ :: fx => transfers fx

/-- The unsigned 64-bit value of a `FILETIME`, high dword first. -/
def FILETIME.quadPart (t : FILETIME) : Nat :=
  t.dwHighDateTime * 2 ^ 32 + t.dwLowDateTime

/-- An unsigned 64-bit value read as a two's-complement signed 64-bit integer. -/
def asInt64 (u : Nat) : Int :=
  if u < 2 ^ 63 then (u : Int) else (u : Int) - 2 ^ 64

/-- A block of `OnEvent` that behaves as the handler expects of a connection with descriptor
`sock` and timeout `timeout`: while control stays in the handler both are kept, when the block
returns from the handler the descriptor is released, and the block never re-arms the wait. -/
def Step.Tame (sock : Option Nat) (timeout : FILETIME) : Step → Prop
  | .next s fx => s.m_socket = sock ∧ s.m_timeout = timeout ∧ rearms fx = []
  | .brk _ s fx => s.m_socket = sock ∧ s.m_timeout = timeout ∧ rearms fx = []
  | .ret o => o.state.m_socket = none ∧ rearms o.effects = []

/-! ## Sequences of sends and write-ready events -/

/-- One step of a sender: a `SendData` call with the answer of its `send`, or a write-ready
event (`FD_WRITE` alone, no error code) with the answer of the flush `send`. -/
inductive Call where
  | sendData (buffer : List Nat) (answer : SendResult)
  | writeReady (answer : SendResult)
deriving DecidableEq, Repr

/-- The surroundings of a write-ready event. -/
def writeReadyEnv (env : Env) (answer : SendResult) : Env :=
  { env with
    send := answer
    WSAEnumNetworkEvents := .ok ⟨FD_WRITE, fun _ => NO_ERROR⟩ }

/-- Runs the calls one after the other; `none` when a `SendData` never returns. -/
def run (env : Env) : ConnectionSocket → List Call → Option (ConnectionSocket × List Effect)
  | s, [] => some (s, [])
  | s, .sendData buffer answer :: calls =>
    match SendData { env with send := answer } s buffer with
    | none => none
    | some o => (run env o.state calls).map fun r => (r.1, o.effects ++ r.2)
  | s, .writeReady answer :: calls =>
    let o := OnEvent (writeReadyEnv env answer) s WAIT_OBJECT_0
    (run env o.state calls).map fun r => (r.1, o.effects ++ r.2)

/-- The payloads submitted by the calls, concatenated. -/
def submittedBytes : List Call → List Nat
  | [] => []
  | .sendData buffer _ :: calls => buffer ++ submittedBytes calls
  | .writeReady _ :: calls => submittedBytes calls

/-! ## Sample inputs -/

/-- Sample surroundings: every operating-system call succeeds, nothing is readable, `send`
accepts nothing, and the consumer returns `S_OK`. -/
def sampleEnv : Env :=
  { WSAGetLastHRESULT := HRESULT_FROM_WIN32
    GetLastHRESULT := HRESULT_FROM_WIN32
    WIN32_FROM_HRESULT := fun hr => hr % 65536
    InetPton := fun _ _ => .ok
    CreateEvent := .ok
    WSACreateEvent := .ok
    socket := fun _ => .handle 7
    AttachToThreadpool := S_OK
    WSAEventSelect := .ok
    connect := .fail WSAEWOULDBLOCK
    shutdown := .ok
    closesocket := .ok
    send := .sent 0
    recv := []
    WSAEnumNetworkEvents := .ok ⟨0, fun _ => NO_ERROR⟩
    outside := fun _ => 170
    OnSocketConnected := S_OK
    OnDataReceived := fun _ _ => S_OK
    OnSocketDisconnected := fun _ => S_OK }

/-- A freshly constructed object: `m_socket(INVALID_SOCKET)`, `m_timeout({})`. -/
def idleSocket : ConnectionSocket :=
  ⟨none, ⟨0, 0⟩, [], false, false, none⟩

/-- A connected object with descriptor 7, an empty send buffer and a 5 s timeout. -/
def liveSocket : ConnectionSocket :=
  ⟨some 7, ⟨4244967296, 4294967295⟩, [], true, true, some true⟩

/-! ## Basic facts about effects and blocks -/

@[simp] theorem deliveredChunks_append (a b : List Effect) :
    deliveredChunks (a ++ b) = deliveredChunks a ++ deliveredChunks b := by
  induction a with
  | nil => rfl
  | cons x xs ih => cases x <;> simp [deliveredChunks, ih]

@[simp] theorem disconnects_append (a b : List Effect) :
    disconnects (a ++ b) = disconnects a ++ disconnects b := by
  induction a with
  | nil => rfl
  | cons x xs ih => cases x <;> simp [disconnects, ih]

@[simp] theorem rearms_append (a b : List Effect) :
    rearms (a ++ b) = rearms a ++ rearms b := by
  induction a with
  | nil => rfl
  | cons x xs ih => cases x <;> simp [rearms, ih]

@[simp] theorem recvReturns_append (a b : List Effect) :
    recvReturns (a ++ b) = recvReturns a ++ recvReturns b := by
  induction a with
  | nil => rfl
  | cons x xs ih => cases x <;> simp [recvReturns, ih]

@[simp] theorem callbacks_append (a b : List Effect) :
    callbacks (a ++ b) = callbacks a ++ callbacks b := by
  induction a with
  | nil => rfl
  | cons x xs ih => cases x <;> simp [callbacks, ih]

@[simp] theorem Step.effects_after (fx : List Effect) (st : Step) :
    (st.after fx).effects = fx ++ st.effects := by
  cases st <;> rfl

theorem CloseSocket_deliveredChunks (env : Env) (self : ConnectionSocket) (wsaError : Int)
    (flags : Nat) : deliveredChunks (CloseSocket env self wsaError flags).effects = [] := by
  unfold CloseSocket
  split
  · rfl
  · split
    · rfl
    · split <;> rfl

theorem finish_deliveredChunks (env : Env) (st : Step) :
    deliveredChunks (finish env st).effects = deliveredChunks st.effects := by
  cases st with
  | next s fx => simp [finish, Step.effects, deliveredChunks]
  | brk e s fx => simp [finish, Step.effects, CloseSocket_deliveredChunks]
  | ret o => rfl

theorem drain_deliveredChunks (env : Env) (self : ConnectionSocket) (rs : List (List Nat))
    (t : RecvResult) (rest : List RecvResult)
    (hterm : t = .bytes [] ∨ ∃ e, t = .fail e) :
    ∀ (i : Nat), (∀ r ∈ rs, r ≠ []) →
      (∀ j (h : j < rs.length), ¬ FAILED (env.OnDataReceived (i + j) rs[j])) →
      deliveredChunks (drain env self i (rs.map RecvResult.bytes ++ t :: rest)).effects = rs := by
  induction rs with
  | nil =>
    intro i _ _
    rcases hterm with h | ⟨e, h⟩
    · subst h; simp [drain, Step.effects, deliveredChunks]
    · subst h
      simp only [List.map_nil, List.nil_append, drain]
      split <;> rfl
  | cons r rs ih =>
    intro i hpos hok
    have hr : r ≠ [] := hpos r (List.mem_cons_self _ _)
    have hlen : (0 : Int) < (r.length : Int) := by
      have : 0 < r.length := List.length_pos.mpr hr
      omega
    have h0 : ¬ FAILED (env.OnDataReceived i r) := by
      have := hok 0 (by simp)
      simpa using this
    have ih2 := ih (i + 1) (fun x hx => hpos x (List.mem_cons_of_mem _ hx))
      (fun j h => by
        have := hok (j + 1) (by simpa using h)
        simpa [Nat.add_assoc, Nat.add_comm 1 j] using this)
    simp only [List.map_cons, List.cons_append, drain, gt_iff_lt, hlen, if_true, h0, if_false,
      Step.effects_after, deliveredChunks_append]
    simp [deliveredChunks, ih2]

theorem Step.next_andThen (s : ConnectionSocket) (fx : List Effect)
    (f : ConnectionSocket → Step) : (Step.next s fx).andThen f = (f s).after fx := rfl

/-- When the `FD_CONNECT` block lets control through, it changes only the connect event and
invokes at most `OnSocketConnected`. -/
theorem connectStep_falls_through (env : Env) (ne : WSANETWORKEVENTS) (self : ConnectionSocket)
    (hconn : ne.lNetworkEvents &&& FD_CONNECT = 0 ∨
      (ne.iErrorCode FD_CONNECT_BIT = NO_ERROR ∧ ¬ FAILED env.OnSocketConnected)) :
    ∃ s1 fx, connectStep env ne self = .next s1 fx ∧ s1.m_socket = self.m_socket ∧
      s1.m_timeout = self.m_timeout ∧ s1.m_sendBuffer = self.m_sendBuffer ∧
      deliveredChunks fx = [] ∧ disconnects fx = [] ∧ rearms fx = [] ∧ recvReturns fx = [] := by
  by_cases hbit : ne.lNetworkEvents &&& FD_CONNECT = 0
  · exact ⟨self, [], by simp [connectStep, hbit], rfl, rfl, rfl, rfl, rfl, rfl, rfl⟩
  · rcases hconn with h | ⟨he, hok⟩
    · exact absurd h hbit
    · exact ⟨{ self with
                m_socketConnectedEvent := self.m_socketConnectedEvent.map fun _ => true },
        [Effect.SetEvent, Effect.OnSocketConnected],
        by simp [connectStep, hbit, he, hok], rfl, rfl, rfl, rfl, rfl, rfl, rfl⟩

/-- When the `FD_WRITE` block lets control through, it changes only the send buffer and
invokes no callback. -/
theorem writeStep_falls_through (env : Env) (ne : WSANETWORKEVENTS) (self : ConnectionSocket)
    (hwrite : ne.lNetworkEvents &&& FD_WRITE = 0 ∨
      (ne.iErrorCode FD_WRITE_BIT = NO_ERROR ∧
        (self.m_sendBuffer = [] ∨ env.send.ret ≠ SOCKET_ERROR ∨
          env.send.wsaLastError = WSAEWOULDBLOCK))) :
    ∃ s2 fx, writeStep env ne self = .next s2 fx ∧ s2.m_socket = self.m_socket ∧
      s2.m_timeout = self.m_timeout ∧
      deliveredChunks fx = [] ∧ disconnects fx = [] ∧ rearms fx = [] ∧ recvReturns fx = [] := by
  by_cases hbit : ne.lNetworkEvents &&& FD_WRITE = 0
  · exact ⟨self, [], by simp [writeStep, hbit], rfl, rfl, rfl, rfl, rfl, rfl⟩
  · rcases hwrite with h | ⟨he, hsend⟩
    · exact absurd h hbit
    · by_cases hempty : self.m_sendBuffer = []
      · exact ⟨self, [], by simp [writeStep, hbit, he, hempty], rfl, rfl, rfl, rfl, rfl, rfl⟩
      · have hlen : 0 < self.m_sendBuffer.length := List.length_pos.mpr hempty
        have hnot : ¬ (env.send.ret = SOCKET_ERROR ∧ env.send.wsaLastError ≠ WSAEWOULDBLOCK) := by
          rcases hsend with h | h | h
          · exact absurd h hempty
          · exact fun hh => h hh.1
          · exact fun hh => hh.2 h
        exact ⟨{ self with
                 m_sendBuffer := moveAndResize env self.m_sendBuffer env.send.ret
                   (((self.m_sendBuffer.length : Int) - env.send.ret) % 2 ^ 64).toNat },
          [Effect.send self.m_sendBuffer env.send.ret],
          by simp only [writeStep]; rw [if_pos hbit, if_neg (by simp [he]), if_pos hlen, if_neg hnot],
          rfl, rfl, rfl, rfl, rfl, rfl⟩

/-- The blocks in front of the `FD_READ` block, when both let control through. -/
theorem before_read_falls_through (env : Env) (ne : WSANETWORKEVENTS) (self : ConnectionSocket)
    (hconn : ne.lNetworkEvents &&& FD_CONNECT = 0 ∨
      (ne.iErrorCode FD_CONNECT_BIT = NO_ERROR ∧ ¬ FAILED env.OnSocketConnected))
    (hwrite : ne.lNetworkEvents &&& FD_WRITE = 0 ∨
      (ne.iErrorCode FD_WRITE_BIT = NO_ERROR ∧
        (self.m_sendBuffer = [] ∨ env.send.ret ≠ SOCKET_ERROR ∨
          env.send.wsaLastError = WSAEWOULDBLOCK))) :
    ∃ s2 fx, (connectStep env ne self).andThen (writeStep env ne) = .next s2 fx ∧
      s2.m_socket = self.m_socket ∧ s2.m_timeout = self.m_timeout ∧
      deliveredChunks fx = [] ∧ disconnects fx = [] ∧ rearms fx = [] ∧ recvReturns fx = [] := by
  obtain ⟨s1, fx1, h1, hs1, ht1, hb1, hd1, hx1, hr1, hv1⟩ :=
    connectStep_falls_through env ne self hconn
  obtain ⟨s2, fx2, h2, hs2, ht2, hd2, hx2, hr2, hv2⟩ :=
    writeStep_falls_through env ne s1 (by rw [hb1]; exact hwrite)
  refine ⟨s2, fx1 ++ fx2, ?_, hs2.trans hs1, ht2.trans ht1, ?_, ?_, ?_, ?_⟩
  · rw [h1, Step.next_andThen, h2]; rfl
  · simp [hd1, hd2]
  · simp [hx1, hx2]
  · simp [hr1, hr2]
  · simp [hv1, hv2]

/-! ## Basic facts about teardown -/

/-- On an object without descriptor `CloseSocket` returns `E_NOT_VALID_STATE` and does
nothing. -/
theorem CloseSocket_closed (env : Env) (self : ConnectionSocket) (wsaError : Int) (flags : Nat)
    (h : self.m_socket = none) :
    CloseSocket env self wsaError flags = ⟨E_NOT_VALID_STATE, self, []⟩ := by
  simp [CloseSocket, h]

/-- On a live object whose `closesocket` succeeds, `CloseSocket` with `SOCKET_CLOSE_RAISEEVENT`
releases everything and then invokes `OnSocketDisconnected` with the given reason. -/
theorem CloseSocket_raise (env : Env) (self : ConnectionSocket) (fd : Nat) (wsaError : Int)
    (hlive : self.m_socket = some fd) (hclose : env.closesocket = .ok) :
    CloseSocket env self wsaError SOCKET_CLOSE_RAISEEVENT =
      ⟨env.OnSocketDisconnected wsaError,
        { self with
          m_socket := none
          m_socketEvent := false
          m_socketConnectedEvent := none
          m_sendBuffer := []
          m_receiveBuffer := false },
        [Effect.closesocket fd, Effect.DetachFromThreadpool false,
          Effect.OnSocketDisconnected wsaError]⟩ := by
  simp [CloseSocket, hlive, hclose, SOCKET_CLOSE_RAISEEVENT, SOCKET_CLOSE_JOINTHREAD]

/-- No path through `CloseSocket` touches the stored timeout. -/
theorem CloseSocket_m_timeout (env : Env) (self : ConnectionSocket) (wsaError : Int)
    (flags : Nat) : (CloseSocket env self wsaError flags).state.m_timeout = self.m_timeout := by
  unfold CloseSocket
  split
  · rfl
  · split
    · rfl
    · split <;> rfl

/-- On a live object whose `closesocket` succeeds, `CloseSocket` with `SOCKET_CLOSE_RAISEEVENT`
releases the descriptor. -/
theorem CloseSocket_raise_released (env : Env) (self : ConnectionSocket) (fd : Nat)
    (wsaError : Int) (hlive : self.m_socket = some fd) (hclose : env.closesocket = .ok) :
    (CloseSocket env self wsaError SOCKET_CLOSE_RAISEEVENT).state.m_socket = none := by
  rw [CloseSocket_raise env self fd wsaError hlive hclose]

/-! ## Basic facts about the flush -/

/-- Moving the unsent tail to the front after `k` accepted bytes drops the first `k` bytes. -/
theorem moveAndResize_accepted (env : Env) (buf : List Nat) (k : Nat) (hk : k ≤ buf.length) :
    moveAndResize env buf (k : Int) (buf.length - k) = buf.drop k := by
  apply List.ext_getElem
  · simp [moveAndResize]
  · intro i h1 h2
    simp only [moveAndResize, List.length_map, List.length_range] at h1
    have hi : i < buf.length := by omega
    have hik : i + k < buf.length := by omega
    have hj : (0 : Int) ≤ (i : Int) + (k : Int) ∧ (i : Int) + (k : Int) < (buf.length : Int) := by
      omega
    have hnat : ((i : Int) + (k : Int)).toNat = i + k := by omega
    have hki : k + i < buf.length := by omega
    simp [moveAndResize, byteAt, hi, hj, hnat, Nat.add_comm, List.getElem?_eq_getElem hki]

/-- A write-ready flush whose `send` accepts `k` of the `n` queued bytes leaves the last
`n - k` bytes queued. -/
theorem writeStep_accepted (env : Env) (ne : WSANETWORKEVENTS) (self : ConnectionSocket)
    (k : Nat)
    (hbit : ne.lNetworkEvents &&& FD_WRITE ≠ 0)
    (herr : ne.iErrorCode FD_WRITE_BIT = NO_ERROR)
    (hbuf : self.m_sendBuffer ≠ [])
    (hsize : self.m_sendBuffer.length < 2 ^ 64)
    (hsend : env.send = .sent k)
    (hk : k ≤ self.m_sendBuffer.length) :
    writeStep env ne self =
      .next { self with m_sendBuffer := self.m_sendBuffer.drop k }
        [Effect.send self.m_sendBuffer (k : Int)] := by
  have hlen : 0 < self.m_sendBuffer.length := List.length_pos.mpr hbuf
  have hrem : ((((self.m_sendBuffer.length : Nat) : Int) - (k : Int)) % 2 ^ 64).toNat
      = self.m_sendBuffer.length - k := by
    have h2 : (2 : Int) ^ 64 = 18446744073709551616 := by norm_num
    have h3 : (2 : Nat) ^ 64 = 18446744073709551616 := by norm_num
    rw [h2]; rw [h3] at hsize
    omega
  simp only [writeStep]
  rw [if_pos hbit, if_neg (by simp [herr]), if_pos hlen,
    if_neg (by simp [hsend, SendResult.ret, SOCKET_ERROR])]
  simp only [hsend, SendResult.ret, hrem, moveAndResize_accepted env _ k hk]

/-! ## Basic facts about the handler as a whole -/

@[simp] theorem gateEffects_append (a b : List Effect) :
    gateEffects (a ++ b) = gateEffects a ++ gateEffects b := by
  induction a with
  | nil => rfl
  | cons x xs ih => cases x <;> simp [gateEffects, ih]

theorem Step.after_andThen (fx : List Effect) (st : Step) (f : ConnectionSocket → Step) :
    (st.after fx).andThen f = (st.andThen f).after fx := by
  cases st with
  | next s t =>
    simp only [Step.after, Step.andThen]
    cases f s <;> simp [Step.after, List.append_assoc]
  | brk e s t => rfl
  | ret o => rfl

/-- Effects that happened before a block come first in the outcome of the handler. -/
theorem finish_after (env : Env) (fx : List Effect) (st : Step) :
    finish env (st.after fx) =
      ⟨(finish env st).result, (finish env st).state, fx ++ (finish env st).effects⟩ := by
  cases st <;> simp [Step.after, finish, List.append_assoc]

theorem CloseSocket_rearms (env : Env) (self : ConnectionSocket) (wsaError : Int)
    (flags : Nat) : rearms (CloseSocket env self wsaError flags).effects = [] := by
  unfold CloseSocket
  split
  · rfl
  · split
    · rfl
    · split <;> rfl

theorem CloseSocket_gateEffects (env : Env) (self : ConnectionSocket) (wsaError : Int)
    (flags : Nat) : gateEffects (CloseSocket env self wsaError flags).effects = [] := by
  unfold CloseSocket
  split
  · rfl
  · split
    · rfl
    · split <;> rfl

theorem CloseSocket_transfers (env : Env) (self : ConnectionSocket) (wsaError : Int)
    (flags : Nat) : transfers (CloseSocket env self wsaError flags).effects = [] := by
  unfold CloseSocket
  split
  · rfl
  · split
    · rfl
    · split <;> rfl

theorem Step.Tame.after {sock : Option Nat} {timeout : FILETIME} {st : Step}
    (h : st.Tame sock timeout) (fx : List Effect) (hfx : rearms fx = []) :
    (st.after fx).Tame sock timeout := by
  cases st with
  | next s t => exact ⟨h.1, h.2.1, by simp [hfx, h.2.2]⟩
  | brk e s t => exact ⟨h.1, h.2.1, by simp [hfx, h.2.2]⟩
  | ret o => exact ⟨h.1, by simp [hfx, h.2]⟩

theorem Step.Tame.andThen {sock : Option Nat} {timeout : FILETIME} {st : Step}
    (h : st.Tame sock timeout) (f : ConnectionSocket → Step)
    (hf : ∀ s, s.m_socket = sock → s.m_timeout = timeout → (f s).Tame sock timeout) :
    (st.andThen f).Tame sock timeout := by
  cases st with
  | next s t => exact (hf s h.1 h.2.1).after t h.2.2
  | brk e s t => exact h
  | ret o => exact h

theorem connectStep_tame (env : Env) (ne : WSANETWORKEVENTS) (self : ConnectionSocket)
    (fd : Nat) (hlive : self.m_socket = some fd) (hclose : env.closesocket = .ok) :
    (connectStep env ne self).Tame self.m_socket self.m_timeout := by
  simp only [connectStep]
  split
  · split
    · exact ⟨rfl, rfl, rfl⟩
    · split
      · exact ⟨CloseSocket_raise_released env _ fd _ hlive hclose,
          by simp [rearms, CloseSocket_rearms]⟩
      · exact ⟨rfl, rfl, rfl⟩
  · exact ⟨rfl, rfl, rfl⟩

theorem writeStep_tame (env : Env) (ne : WSANETWORKEVENTS) (self : ConnectionSocket) :
    (writeStep env ne self).Tame self.m_socket self.m_timeout := by
  simp only [writeStep]
  split
  · split
    · exact ⟨rfl, rfl, rfl⟩
    · split
      · split
        · exact ⟨rfl, rfl, rfl⟩
        · exact ⟨rfl, rfl, rfl⟩
      · exact ⟨rfl, rfl, rfl⟩
  · exact ⟨rfl, rfl, rfl⟩

theorem drain_tame (env : Env) (self : ConnectionSocket) (fd : Nat)
    (hlive : self.m_socket = some fd) (hclose : env.closesocket = .ok) :
    ∀ (answers : List RecvResult) (i : Nat),
      (drain env self i answers).Tame self.m_socket self.m_timeout := by
  intro answers
  induction answers with
  | nil => intro i; exact ⟨rfl, rfl, rfl⟩
  | cons a rest ih =>
    intro i
    cases a with
    | fail e =>
      simp only [drain]
      split <;> exact ⟨rfl, rfl, rfl⟩
    | bytes chunk =>
      simp only [drain]
      split
      · split
        · exact ⟨CloseSocket_raise_released env _ fd _ hlive hclose,
            by simp [rearms, CloseSocket_rearms]⟩
        · exact (ih (i + 1)).after _ rfl
      · exact ⟨rfl, rfl, rfl⟩

theorem readStep_tame (env : Env) (ne : WSANETWORKEVENTS) (self : ConnectionSocket)
    (fd : Nat) (hlive : self.m_socket = some fd) (hclose : env.closesocket = .ok) :
    (readStep env ne self).Tame self.m_socket self.m_timeout := by
  simp only [readStep]
  split
  · split
    · exact ⟨rfl, rfl, rfl⟩
    · exact drain_tame env self fd hlive hclose env.recv 0
  · exact ⟨rfl, rfl, rfl⟩

/-- The three blocks of the handler, run on a live connection whose `closesocket` succeeds. -/
theorem blocks_tame (env : Env) (ne : WSANETWORKEVENTS) (self : ConnectionSocket)
    (fd : Nat) (hlive : self.m_socket = some fd) (hclose : env.closesocket = .ok) :
    (((connectStep env ne self).andThen (writeStep env ne)).andThen
      (readStep env ne)).Tame (some fd) self.m_timeout := by
  have h1 := connectStep_tame env ne self fd hlive hclose
  rw [hlive] at h1
  refine (h1.andThen _ ?_).andThen _ ?_
  · intro s hs ht
    have := writeStep_tame env ne s
    rwa [hs, ht] at this
  · intro s hs ht
    have := readStep_tame env ne s fd hs hclose
    rwa [hs, ht] at this

/-- After tame blocks on a live connection whose `closesocket` succeeds, the handler either
has released the descriptor without re-arming, or kept descriptor and timeout, re-armed once
with that timeout and returned `S_OK`. -/
theorem finish_tame (env : Env) (st : Step) (fd : Nat) (timeout : FILETIME)
    (h : st.Tame (some fd) timeout) (hclose : env.closesocket = .ok) :
    ((finish env st).state.m_socket = none ∧ rearms (finish env st).effects = []) ∨
    ((finish env st).state.m_socket = some fd ∧ (finish env st).state.m_timeout = timeout ∧
      (finish env st).result = S_OK ∧ rearms (finish env st).effects = [timeout]) := by
  cases st with
  | next s fx =>
    right
    obtain ⟨h1, h2, h3⟩ := h
    simp [finish, h1, h2, h3, rearms]
  | brk e s fx =>
    left
    obtain ⟨h1, h2, h3⟩ := h
    simp [finish, CloseSocket_raise env s fd e h1 hclose, h3, rearms]
  | ret o => left; exact h

theorem writeStep_gateEffects (env : Env) (ne : WSANETWORKEVENTS) (self : ConnectionSocket) :
    gateEffects (writeStep env ne self).effects = [] := by
  simp only [writeStep]
  split
  · split
    · rfl
    · split
      · split <;> rfl
      · rfl
  · rfl

theorem drain_gateEffects (env : Env) (self : ConnectionSocket) :
    ∀ (answers : List RecvResult) (i : Nat),
      gateEffects (drain env self i answers).effects = [] := by
  intro answers
  induction answers with
  | nil => intro i; rfl
  | cons a rest ih =>
    intro i
    cases a with
    | fail e =>
      simp only [drain]
      split <;> rfl
    | bytes chunk =>
      simp only [drain]
      split
      · split
        · simp [Step.effects, gateEffects, CloseSocket_gateEffects]
        · simp [gateEffects, ih (i + 1)]
      · rfl

theorem readStep_gateEffects (env : Env) (ne : WSANETWORKEVENTS) (self : ConnectionSocket) :
    gateEffects (readStep env ne self).effects = [] := by
  simp only [readStep]
  split
  · split
    · rfl
    · exact drain_gateEffects env self env.recv 0
  · rfl

theorem andThen_gateEffects (st : Step) (f : ConnectionSocket → Step)
    (h : gateEffects st.effects = []) (hf : ∀ s, gateEffects (f s).effects = []) :
    gateEffects (st.andThen f).effects = [] := by
  cases st with
  | next s fx =>
    simp only [Step.andThen, Step.effects_after, gateEffects_append, hf s]
    simpa [Step.effects] using h
  | brk e s fx => exact h
  | ret o => exact h

theorem finish_gateEffects (env : Env) (st : Step) :
    gateEffects (finish env st).effects = gateEffects st.effects := by
  cases st with
  | next s fx => simp [finish, Step.effects, gateEffects]
  | brk e s fx => simp [finish, Step.effects, CloseSocket_gateEffects]
  | ret o => rfl

/-- The write and read handling neither signals the connect event nor invokes
`OnSocketConnected`. -/
theorem after_connect_gateEffects (env : Env) (ne : WSANETWORKEVENTS)
    (self : ConnectionSocket) :
    gateEffects (finish env ((writeStep env ne self).andThen (readStep env ne))).effects
      = [] := by
  rw [finish_gateEffects]
  exact andThen_gateEffects _ _ (writeStep_gateEffects env ne self)
    (fun s => readStep_gateEffects env ne s)

/-! ## Sending: what reaches the kernel and what is queued -/

/-- Claim C1, evaluated on the code.  Two single `SendData` calls of `[1, 2, 3]` on a connected
socket with an empty send buffer: when the kernel accepts one byte, the accepted bytes followed
by the send buffer are `[1, 1, 2]`; when the kernel reports would-block they are `[]`.  Neither
is the submitted `[1, 2, 3]`. -/
theorem C1_accepted_then_queued_differs_from_submitted :
    ((run sampleEnv liveSocket [.sendData [1, 2, 3] (.sent 1)]).map
        fun r => acceptedBytes r.2 ++ r.1.m_sendBuffer) = some [1, 1, 2]
    ∧ ((run sampleEnv liveSocket [.sendData [1, 2, 3] (.fail WSAEWOULDBLOCK)]).map
        fun r => acceptedBytes r.2 ++ r.1.m_sendBuffer) = some []
    ∧ submittedBytes [.sendData [1, 2, 3] (.sent 1)] = [1, 2, 3]
    ∧ submittedBytes [.sendData [1, 2, 3] (.fail WSAEWOULDBLOCK)] = [1, 2, 3] := by
  decide

/-- Claim C2, evaluated on the code.  `SendData` of `[1, 2, 3]` on a connected socket whose
send buffer holds `[9]`, with `send` reporting would-block, returns `S_OK` and leaves the send
buffer `[9]`: the payload is not queued. -/
theorem C2_would_block_payload_not_queued :
    SendData { sampleEnv with send := .fail WSAEWOULDBLOCK }
        { liveSocket with m_sendBuffer := [9] } [1, 2, 3]
      = some ⟨S_OK, { liveSocket with m_sendBuffer := [9] },
          [Effect.send [1, 2, 3] SOCKET_ERROR]⟩ := by
  decide

/-- Claim C3, evaluated on the code.  `SendData` of `[1, 2, 3]` on a connected socket whose
send buffer holds `[9]`, with `send` accepting one byte, leaves the send buffer `[9, 1, 2]`:
the two bytes appended are the first two of the payload, not the unsent `[2, 3]`. -/
theorem C3_partial_send_queues_leading_bytes :
    (SendData { sampleEnv with send := .sent 1 }
        { liveSocket with m_sendBuffer := [9] } [1, 2, 3]).map
      (fun o => (o.result, o.state.m_sendBuffer)) = some (S_OK, [9, 1, 2]) := by
  decide

/-- Claim C4, evaluated on the code.  A write-ready event without error code on a live
connection whose send buffer is `[1, 2]`, with the flush `send` reporting would-block, returns
`S_OK`, keeps the descriptor, re-arms the wait, and leaves a send buffer of three bytes: the
flush made the buffer one byte longer instead of leaving it unchanged. -/
theorem C4_would_block_flush_grows_buffer :
    (OnEvent (writeReadyEnv sampleEnv (.fail WSAEWOULDBLOCK))
        { liveSocket with m_sendBuffer := [1, 2] } WAIT_OBJECT_0).result = S_OK
    ∧ (OnEvent (writeReadyEnv sampleEnv (.fail WSAEWOULDBLOCK))
        { liveSocket with m_sendBuffer := [1, 2] } WAIT_OBJECT_0).state.m_socket = some 7
    ∧ (OnEvent (writeReadyEnv sampleEnv (.fail WSAEWOULDBLOCK))
        { liveSocket with m_sendBuffer := [1, 2] } WAIT_OBJECT_0).state.m_sendBuffer.length = 3
    ∧ (OnEvent (writeReadyEnv sampleEnv (.fail WSAEWOULDBLOCK))
        { liveSocket with m_sendBuffer := [1, 2] } WAIT_OBJECT_0).effects
      = [Effect.send [1, 2] SOCKET_ERROR, Effect.SetThreadpoolWait liveSocket.m_timeout] := by
  decide

/-! ## A `send` that fails -/

/-- Claim C7 fails on the code for `SendData`.  On the sample connection, a `SendData` whose
`send` fails with 10054 (connection reset) returns `HRESULT_FROM_WIN32(10054)`, leaves the
object as it was, descriptor included, and `OnSocketDisconnected` is not invoked. -/
theorem C7_SendData_error_leaves_connection_open :
    (SendData { sampleEnv with send := .fail 10054 } liveSocket [1, 2, 3]).map
      (fun o => (o.result, o.state, disconnects o.effects))
      = some (HRESULT_FROM_WIN32 10054, liveSocket, []) := by
  decide

/-- Claim C7, amended.  Let the `send` attempt on a live connection fail with an error `e`
other than would-block.
* In the write-ready flush of `OnEvent` (signalled wait, no close bit, connect handling letting
  control through, write bit set without error code, non-empty send buffer), provided
  `closesocket` succeeds: the descriptor is released, `OnSocketDisconnected` is invoked exactly
  once, with `e`, and `OnEvent` returns `HRESULT_FROM_WIN32(e)`.
* In `SendData` (connect event signalled): the call returns `HRESULT_FROM_WIN32(e)`, leaves
  the object unchanged and invokes no callback. -/
theorem C7_send_error_flush_tears_down_SendData_reports (env : Env) (self : ConnectionSocket)
    (fd : Nat) (e : Int)
    (hlive : self.m_socket = some fd)
    (hsend : env.send = .fail e)
    (he : e ≠ WSAEWOULDBLOCK) :
    (∀ ne : WSANETWORKEVENTS,
      env.WSAEnumNetworkEvents = .ok ne →
      ne.lNetworkEvents &&& FD_CLOSE = 0 →
      (ne.lNetworkEvents &&& FD_CONNECT = 0 ∨
        (ne.iErrorCode FD_CONNECT_BIT = NO_ERROR ∧ ¬ FAILED env.OnSocketConnected)) →
      ne.lNetworkEvents &&& FD_WRITE ≠ 0 →
      ne.iErrorCode FD_WRITE_BIT = NO_ERROR →
      self.m_sendBuffer ≠ [] →
      env.closesocket = .ok →
      (OnEvent env self WAIT_OBJECT_0).state.m_socket = none ∧
      disconnects (OnEvent env self WAIT_OBJECT_0).effects = [e] ∧
      (OnEvent env self WAIT_OBJECT_0).result = HRESULT_FROM_WIN32 e) ∧
    (∀ buffer : List Nat,
      self.m_socketConnectedEvent ≠ some false →
      SendData env self buffer =
        some ⟨HRESULT_FROM_WIN32 e, self, [Effect.send buffer SOCKET_ERROR]⟩) := by
  constructor
  · intro ne henum hclose hconn hbit herr hbuf hcs
    obtain ⟨s1, fx1, h1, hs1, -, hb1, -, hx1, -, -⟩ := connectStep_falls_through env ne self hconn
    have hlen : 0 < s1.m_sendBuffer.length := by
      rw [hb1]; exact List.length_pos.mpr hbuf
    have hw : writeStep env ne s1 = .brk e s1 [Effect.send s1.m_sendBuffer SOCKET_ERROR] := by
      simp only [writeStep]
      rw [if_pos hbit, if_neg (by simp [herr]), if_pos hlen, if_pos (by simp [hsend, SendResult.ret, SendResult.wsaLastError, he])]
      simp [hsend, SendResult.ret, SendResult.wsaLastError]
    have hc := CloseSocket_raise env s1 fd e (hs1.trans hlive) hcs
    simp [OnEvent, hlive, henum, hclose, h1, Step.next_andThen, hw, Step.after, Step.andThen,
      finish, hc, hx1, disconnects]
  · intro buffer hgate
    simp [SendData, hlive, hgate, hsend, SendResult.ret, SendResult.wsaLastError, he]

/-- Claim C7, amended, at a concrete input: a write-ready event on the sample connection with
send buffer `[1, 2]`, and a `SendData` of `[1, 2, 3]`, both with `send` failing with 10054. -/
theorem C7_send_error_flush_tears_down_SendData_reports_witness :
    ((OnEvent (writeReadyEnv sampleEnv (.fail 10054))
        { liveSocket with m_sendBuffer := [1, 2] } WAIT_OBJECT_0).state.m_socket = none ∧
      disconnects (OnEvent (writeReadyEnv sampleEnv (.fail 10054))
        { liveSocket with m_sendBuffer := [1, 2] } WAIT_OBJECT_0).effects = [10054] ∧
      (OnEvent (writeReadyEnv sampleEnv (.fail 10054))
        { liveSocket with m_sendBuffer := [1, 2] } WAIT_OBJECT_0).result
        = HRESULT_FROM_WIN32 10054) ∧
    SendData (writeReadyEnv sampleEnv (.fail 10054))
        { liveSocket with m_sendBuffer := [1, 2] } [1, 2, 3] =
      some ⟨HRESULT_FROM_WIN32 10054, { liveSocket with m_sendBuffer := [1, 2] },
        [Effect.send [1, 2, 3] SOCKET_ERROR]⟩ :=
  have h := C7_send_error_flush_tears_down_SendData_reports
    (writeReadyEnv sampleEnv (.fail 10054)) { liveSocket with m_sendBuffer := [1, 2] } 7 10054
    rfl rfl (by decide)
  ⟨h.1 ⟨FD_WRITE, fun _ => NO_ERROR⟩ rfl (by decide) (Or.inl (by decide)) (by decide) rfl
      (by decide) rfl,
    h.2 [1, 2, 3] (by decide)⟩

/-! ## Receiving -/

/-- Claim C5.  On a live connection, for a signalled event batch that reaches the read-ready
handling (no close bit; the connect and write handling, if any, let control through; the read
bit set without error code): when the successive `recv` calls return the non-empty chunks
`r1, ..., rm` and then a terminating result (zero bytes, or an error such as would-block), and
`OnDataReceived` succeeds on each of them, the chunks handed to `OnDataReceived` during the
invocation are exactly `r1, ..., rm`, each once and in that order. -/
theorem C5_drain_delivers_chunks_once_in_order (env : Env) (self : ConnectionSocket) (fd : Nat)
    (ne : WSANETWORKEVENTS) (rs : List (List Nat)) (t : RecvResult) (rest : List RecvResult)
    (hlive : self.m_socket = some fd)
    (henum : env.WSAEnumNetworkEvents = .ok ne)
    (hclose : ne.lNetworkEvents &&& FD_CLOSE = 0)
    (hconn : ne.lNetworkEvents &&& FD_CONNECT = 0 ∨
      (ne.iErrorCode FD_CONNECT_BIT = NO_ERROR ∧ ¬ FAILED env.OnSocketConnected))
    (hwrite : ne.lNetworkEvents &&& FD_WRITE = 0 ∨
      (ne.iErrorCode FD_WRITE_BIT = NO_ERROR ∧
        (self.m_sendBuffer = [] ∨ env.send.ret ≠ SOCKET_ERROR ∨
          env.send.wsaLastError = WSAEWOULDBLOCK)))
    (hread : ne.lNetworkEvents &&& FD_READ ≠ 0)
    (hreadErr : ne.iErrorCode FD_READ_BIT = NO_ERROR)
    (hrecv : env.recv = rs.map RecvResult.bytes ++ t :: rest)
    (hpos : ∀ r ∈ rs, r ≠ [])
    (hterm : t = .bytes [] ∨ ∃ e, t = .fail e)
    (hok : ∀ i (h : i < rs.length), ¬ FAILED (env.OnDataReceived i rs[i])) :
    deliveredChunks (OnEvent env self WAIT_OBJECT_0).effects = rs := by
  obtain ⟨s2, fx, hstep, -, -, hd, -, -, -⟩ := before_read_falls_through env ne self hconn hwrite
  have hdrain := drain_deliveredChunks env s2 rs t rest hterm 0 hpos
    (fun j h => by simpa using hok j h)
  simp only [OnEvent, ne_eq, not_true_eq_false, if_false, hlive, henum, hclose, hstep,
    finish_deliveredChunks, Step.next_andThen, Step.effects_after, deliveredChunks_append, hd,
    readStep, hread, not_false_eq_true, if_true, hreadErr, hrecv, hdrain, List.nil_append]

/-- Claim C5 at a concrete input: a read-ready event on the sample connection with `recv`
returning `[1, 2]`, then `[3]`, then zero bytes. -/
theorem C5_drain_delivers_chunks_once_in_order_witness :
    deliveredChunks (OnEvent
        { sampleEnv with
          recv := [.bytes [1, 2], .bytes [3], .bytes []]
          WSAEnumNetworkEvents := .ok ⟨FD_READ, fun _ => NO_ERROR⟩ }
        liveSocket WAIT_OBJECT_0).effects = [[1, 2], [3]] :=
  C5_drain_delivers_chunks_once_in_order _ liveSocket 7 ⟨FD_READ, fun _ => NO_ERROR⟩
    [[1, 2], [3]] (.bytes []) [] rfl rfl (by decide) (Or.inl (by decide)) (Or.inl (by decide))
    (by decide) rfl rfl (by decide) (Or.inl rfl)
    (by intro i _; simp [sampleEnv, FAILED, S_OK])

/-! ## A receive that returns zero -/

theorem drainEffects_observed (rs : List (List Nat)) :
    deliveredChunks (drainEffects rs) = rs ∧ disconnects (drainEffects rs) = [] ∧
      rearms (drainEffects rs) = [] ∧
      recvReturns (drainEffects rs) = rs.map fun r => (r.length : Int) := by
  induction rs with
  | nil => exact ⟨rfl, rfl, rfl, rfl⟩
  | cons r rs ih =>
    obtain ⟨h1, h2, h3, h4⟩ := ih
    simp [drainEffects, deliveredChunks, disconnects, rearms, recvReturns, h1, h2, h3, h4]

/-- The drain loop on non-empty chunks that `OnDataReceived` accepts, followed by a `recv`
that returns zero: the loop ends there and control falls through. -/
theorem drain_until_zero (env : Env) (self : ConnectionSocket) (rs : List (List Nat))
    (rest : List RecvResult) :
    ∀ (i : Nat), (∀ r ∈ rs, r ≠ []) →
      (∀ j (h : j < rs.length), ¬ FAILED (env.OnDataReceived (i + j) rs[j])) →
      drain env self i (rs.map RecvResult.bytes ++ RecvResult.bytes [] :: rest) =
        .next self (drainEffects rs ++ [Effect.recv 0]) := by
  induction rs with
  | nil => intro i _ _; simp [drain, drainEffects]
  | cons r rs ih =>
    intro i hpos hok
    have hr : r ≠ [] := hpos r (List.mem_cons_self _ _)
    have hlen : (0 : Int) < (r.length : Int) := by
      have : 0 < r.length := List.length_pos.mpr hr
      omega
    have h0 : ¬ FAILED (env.OnDataReceived i r) := by
      have := hok 0 (by simp)
      simpa using this
    have ih2 := ih (i + 1) (fun x hx => hpos x (List.mem_cons_of_mem _ hx))
      (fun j h => by
        have := hok (j + 1) (by simpa using h)
        simpa [Nat.add_assoc, Nat.add_comm 1 j] using this)
    simp only [List.map_cons, List.cons_append, drain, gt_iff_lt, hlen, if_true, h0, if_false,
      List.append_eq]
    rw [ih2]
    simp [Step.after, drainEffects]

/-- Claim C8 fails on the code.  A read-ready event on the sample connection whose first
`recv` returns zero: `OnEvent` returns `S_OK`, the object is unchanged and keeps its
descriptor, `OnSocketDisconnected` is not invoked, and the wait is re-armed. -/
theorem C8_zero_receive_keeps_connection_and_rearms :
    OnEvent
        { sampleEnv with
          recv := [.bytes []]
          WSAEnumNetworkEvents := .ok ⟨FD_READ, fun _ => NO_ERROR⟩ }
        liveSocket WAIT_OBJECT_0
      = ⟨S_OK, liveSocket, [Effect.recv 0, Effect.SetThreadpoolWait liveSocket.m_timeout]⟩ := by
  decide

/-- Claim C8, amended.  On a live connection, for a signalled event batch that reaches the
read-ready handling, when `recv` returns non-empty chunks `r1, ..., rm` that `OnDataReceived`
accepts and then returns zero: the handler stops draining (the zero is the last `recv`, and
`r1, ..., rm` are what was delivered), keeps the descriptor, does not invoke
`OnSocketDisconnected`, re-arms the wait exactly once with the stored timeout, and returns
`S_OK`. -/
theorem C8_zero_receive_ends_drain_without_teardown (env : Env) (self : ConnectionSocket)
    (fd : Nat) (ne : WSANETWORKEVENTS) (rs : List (List Nat)) (rest : List RecvResult)
    (hlive : self.m_socket = some fd)
    (henum : env.WSAEnumNetworkEvents = .ok ne)
    (hclose : ne.lNetworkEvents &&& FD_CLOSE = 0)
    (hconn : ne.lNetworkEvents &&& FD_CONNECT = 0 ∨
      (ne.iErrorCode FD_CONNECT_BIT = NO_ERROR ∧ ¬ FAILED env.OnSocketConnected))
    (hwrite : ne.lNetworkEvents &&& FD_WRITE = 0 ∨
      (ne.iErrorCode FD_WRITE_BIT = NO_ERROR ∧
        (self.m_sendBuffer = [] ∨ env.send.ret ≠ SOCKET_ERROR ∨
          env.send.wsaLastError = WSAEWOULDBLOCK)))
    (hread : ne.lNetworkEvents &&& FD_READ ≠ 0)
    (hreadErr : ne.iErrorCode FD_READ_BIT = NO_ERROR)
    (hrecv : env.recv = rs.map RecvResult.bytes ++ RecvResult.bytes [] :: rest)
    (hpos : ∀ r ∈ rs, r ≠ [])
    (hok : ∀ i (h : i < rs.length), ¬ FAILED (env.OnDataReceived i rs[i])) :
    (OnEvent env self WAIT_OBJECT_0).result = S_OK ∧
    (OnEvent env self WAIT_OBJECT_0).state.m_socket = some fd ∧
    disconnects (OnEvent env self WAIT_OBJECT_0).effects = [] ∧
    rearms (OnEvent env self WAIT_OBJECT_0).effects = [self.m_timeout] ∧
    recvReturns (OnEvent env self WAIT_OBJECT_0).effects
      = (rs.map fun r => (r.length : Int)) ++ [0] ∧
    deliveredChunks (OnEvent env self WAIT_OBJECT_0).effects = rs := by
  obtain ⟨s2, fx, hstep, hs2, ht2, hd, hx, hr, hv⟩ :=
    before_read_falls_through env ne self hconn hwrite
  have hdrain := drain_until_zero env s2 rs rest 0 hpos (fun j h => by simpa using hok j h)
  obtain ⟨o1, o2, o3, o4⟩ := drainEffects_observed rs
  have hev : OnEvent env self WAIT_OBJECT_0 =
      ⟨S_OK, s2, fx ++ (drainEffects rs ++ [Effect.recv 0]) ++
        [Effect.SetThreadpoolWait s2.m_timeout]⟩ := by
    simp only [OnEvent, ne_eq, not_true_eq_false, if_false, hlive, henum, hclose, hstep,
      Step.next_andThen, readStep, hread, not_false_eq_true, if_true, hreadErr, hrecv, hdrain,
      Step.after, finish]
  rw [hev]
  simp [hs2, hlive, ht2, hd, hx, hr, hv, o1, o2, o3, o4, disconnects, rearms, recvReturns,
    deliveredChunks]

/-- Claim C8, amended, at a concrete input: a read-ready event on the sample connection with
`recv` returning `[1, 2]`, then zero bytes, with more data behind. -/
theorem C8_zero_receive_ends_drain_without_teardown_witness :
    (OnEvent { sampleEnv with
               recv := [.bytes [1, 2], .bytes [], .bytes [3]]
               WSAEnumNetworkEvents := .ok ⟨FD_READ, fun _ => NO_ERROR⟩ }
        liveSocket WAIT_OBJECT_0).result = S_OK ∧
    (OnEvent { sampleEnv with
               recv := [.bytes [1, 2], .bytes [], .bytes [3]]
               WSAEnumNetworkEvents := .ok ⟨FD_READ, fun _ => NO_ERROR⟩ }
        liveSocket WAIT_OBJECT_0).state.m_socket = some 7 ∧
    disconnects (OnEvent { sampleEnv with
               recv := [.bytes [1, 2], .bytes [], .bytes [3]]
               WSAEnumNetworkEvents := .ok ⟨FD_READ, fun _ => NO_ERROR⟩ }
        liveSocket WAIT_OBJECT_0).effects = [] ∧
    rearms (OnEvent { sampleEnv with
               recv := [.bytes [1, 2], .bytes [], .bytes [3]]
               WSAEnumNetworkEvents := .ok ⟨FD_READ, fun _ => NO_ERROR⟩ }
        liveSocket WAIT_OBJECT_0).effects = [liveSocket.m_timeout] ∧
    recvReturns (OnEvent { sampleEnv with
               recv := [.bytes [1, 2], .bytes [], .bytes [3]]
               WSAEnumNetworkEvents := .ok ⟨FD_READ, fun _ => NO_ERROR⟩ }
        liveSocket WAIT_OBJECT_0).effects = ([[1, 2]].map fun r => (r.length : Int)) ++ [0] ∧
    deliveredChunks (OnEvent { sampleEnv with
               recv := [.bytes [1, 2], .bytes [], .bytes [3]]
               WSAEnumNetworkEvents := .ok ⟨FD_READ, fun _ => NO_ERROR⟩ }
        liveSocket WAIT_OBJECT_0).effects = [[1, 2]] :=
  C8_zero_receive_ends_drain_without_teardown _ liveSocket 7 ⟨FD_READ, fun _ => NO_ERROR⟩
    [[1, 2]] [.bytes [3]] rfl rfl (by decide) (Or.inl (by decide)) (Or.inl (by decide))
    (by decide) rfl rfl (by decide)
    (by intro i _; simp [sampleEnv, FAILED, S_OK])

/-! ## Closing twice -/

/-- Claim C6.  On a live connection whose first `Close()` succeeds (its `closesocket` call
succeeds, so that `Close()` returns `S_OK`), an immediately following second `Close()`,
whatever the surroundings answer, returns `E_NOT_VALID_STATE`, leaves every field unchanged and
has no effect at all, in particular invokes no callback. -/
theorem C6_second_Close_is_rejected_without_effect (env1 env2 : Env) (self : ConnectionSocket)
    (fd : Nat) (hlive : self.m_socket = some fd) (hfirst : env1.closesocket = .ok) :
    (Close env1 self).result = S_OK ∧
    Close env2 (Close env1 self).state =
      ⟨E_NOT_VALID_STATE, (Close env1 self).state, []⟩ := by
  have h1 : (Close env1 self).state.m_socket = none := by
    simp [Close, CloseSocket, hlive, hfirst, SOCKET_CLOSE_RAISEEVENT, SOCKET_CLOSE_JOINTHREAD]
  refine ⟨?_, ?_⟩
  · simp [Close, CloseSocket, hlive, hfirst, SOCKET_CLOSE_RAISEEVENT, SOCKET_CLOSE_JOINTHREAD]
  · exact CloseSocket_closed env2 _ _ _ h1

/-- Claim C6 at a concrete input: the sample connection closed twice. -/
theorem C6_second_Close_is_rejected_without_effect_witness :
    (Close sampleEnv liveSocket).result = S_OK ∧
    Close sampleEnv (Close sampleEnv liveSocket).state =
      ⟨E_NOT_VALID_STATE, (Close sampleEnv liveSocket).state, []⟩ :=
  C6_second_Close_is_rejected_without_effect sampleEnv sampleEnv liveSocket 7 rfl rfl

/-! ## Timer expiry -/

/-- Claim C9 fails on the code when `closesocket` fails.  A handler invocation on the sample
connection with wait result 258 (`WAIT_TIMEOUT`) while `closesocket` fails with 10050: the
object is unchanged and keeps its descriptor, and no callback is invoked: the only effect is
the `closesocket` call. -/
theorem C9_timeout_with_failing_closesocket_stays_open :
    (OnEvent { sampleEnv with closesocket := .fail 10050 } liveSocket 258).state = liveSocket ∧
    (OnEvent { sampleEnv with closesocket := .fail 10050 } liveSocket 258).effects
      = [Effect.closesocket 7] := by
  decide

/-- Claim C9, amended.  On a live connection, a handler invocation whose wait result is not
`WAIT_OBJECT_0` and whose `closesocket` succeeds releases the descriptor, invokes
`OnSocketDisconnected` exactly once with `ERROR_TIMEOUT`, invokes no other callback, returns
that callback's result and does not re-arm the wait; every later handler invocation on the
closed object, whatever the wait result and the surroundings, has no effect at all (no callback,
no re-arm) and leaves the object unchanged. -/
theorem C9_timeout_disconnects_exactly_once (env : Env) (self : ConnectionSocket) (fd : Nat)
    (waitResult : Nat)
    (hlive : self.m_socket = some fd)
    (hwait : waitResult ≠ WAIT_OBJECT_0)
    (hclose : env.closesocket = .ok) :
    (OnEvent env self waitResult).state.m_socket = none ∧
    callbacks (OnEvent env self waitResult).effects
      = [Effect.OnSocketDisconnected ERROR_TIMEOUT] ∧
    (OnEvent env self waitResult).result = env.OnSocketDisconnected ERROR_TIMEOUT ∧
    rearms (OnEvent env self waitResult).effects = [] ∧
    ∀ (later : Env) (laterWait : Nat),
      (OnEvent later (OnEvent env self waitResult).state laterWait).effects = [] ∧
      (OnEvent later (OnEvent env self waitResult).state laterWait).state
        = (OnEvent env self waitResult).state := by
  have hev : OnEvent env self waitResult
      = CloseSocket env self ERROR_TIMEOUT SOCKET_CLOSE_RAISEEVENT := by
    simp [OnEvent, hwait]
  rw [hev, CloseSocket_raise env self fd ERROR_TIMEOUT hlive hclose]
  refine ⟨rfl, rfl, rfl, rfl, ?_⟩
  intro later laterWait
  by_cases hw : laterWait = WAIT_OBJECT_0
  · simp [OnEvent, hw]
  · simp [OnEvent, hw, CloseSocket]

/-- Claim C9, amended, at a concrete input: the sample connection, wait result 258
(`WAIT_TIMEOUT`). -/
theorem C9_timeout_disconnects_exactly_once_witness :
    (OnEvent sampleEnv liveSocket 258).state.m_socket = none ∧
    callbacks (OnEvent sampleEnv liveSocket 258).effects
      = [Effect.OnSocketDisconnected ERROR_TIMEOUT] ∧
    (OnEvent sampleEnv liveSocket 258).result = sampleEnv.OnSocketDisconnected ERROR_TIMEOUT ∧
    rearms (OnEvent sampleEnv liveSocket 258).effects = [] ∧
    ∀ (later : Env) (laterWait : Nat),
      (OnEvent later (OnEvent sampleEnv liveSocket 258).state laterWait).effects = [] ∧
      (OnEvent later (OnEvent sampleEnv liveSocket 258).state laterWait).state
        = (OnEvent sampleEnv liveSocket 258).state :=
  C9_timeout_disconnects_exactly_once sampleEnv liveSocket 7 258 rfl (by decide) rfl

/-! ## Failures of ConnectSocket -/

/-- Claim C10 fails on the code when `closesocket` fails.  `ConnectSocket` on a fresh object
whose `connect` fails with 10061 (connection refused) while `closesocket` fails with 10050
returns `HRESULT_FROM_WIN32(10061)`, a failure, and the object keeps descriptor 7. -/
theorem C10_connect_failure_with_failing_closesocket_keeps_descriptor :
    (ConnectSocket { sampleEnv with connect := .fail 10061, closesocket := .fail 10050 }
        idleSocket ⟨"149.154.167.50", 443⟩ false 5000).result = HRESULT_FROM_WIN32 10061 ∧
    FAILED (HRESULT_FROM_WIN32 10061) ∧
    (ConnectSocket { sampleEnv with connect := .fail 10061, closesocket := .fail 10050 }
        idleSocket ⟨"149.154.167.50", 443⟩ false 5000).state.m_socket = some 7 := by
  decide

/-- Claim C10, amended.  Take a `ConnectSocket` call on an object without descriptor and write
`family` for the address family chosen by the flag.  Whatever the surroundings answer, also
when `closesocket` fails:
* no callback is invoked;
* each failure is the returned value: a failed address parse, event creation or socket-event
  creation returns the helper's `HRESULT` of the last error; a failed socket creation, event
  selection, or connect with an error other than would-block returns `HRESULT_FROM_WIN32` of
  the last error; a failed dispatcher registration returns its `HRESULT`;
* the failures before a socket exists (parse, events, socket creation) leave the object
  without descriptor;
* a connect reporting would-block returns `S_OK` and keeps the new descriptor.

The failures after socket creation (registration, event selection, connect) leave the object
without descriptor when `closesocket` succeeds; so, when `closesocket` succeeds, every call
that returns anything but `S_OK` leaves the object without descriptor. -/
theorem C10_connect_failures_are_returned_without_callback (env : Env)
    (self : ConnectionSocket) (endpoint : ServerEndpoint) (ipv6 : Bool) (timeoutMs : Nat)
    (hidle : self.m_socket = none) :
    callbacks (ConnectSocket env self endpoint ipv6 timeoutMs).effects = [] ∧
    (env.closesocket = .ok →
      (ConnectSocket env self endpoint ipv6 timeoutMs).result ≠ S_OK →
      (ConnectSocket env self endpoint ipv6 timeoutMs).state.m_socket = none) ∧
    (∀ e, env.InetPton (if ipv6 then AF_INET6 else AF_INET) endpoint.Address = .fail e →
      (ConnectSocket env self endpoint ipv6 timeoutMs).result = env.WSAGetLastHRESULT e ∧
      (ConnectSocket env self endpoint ipv6 timeoutMs).state.m_socket = none) ∧
    (env.InetPton (if ipv6 then AF_INET6 else AF_INET) endpoint.Address = .ok →
      (∀ e, env.CreateEvent = .fail e →
        (ConnectSocket env self endpoint ipv6 timeoutMs).result = env.GetLastHRESULT e ∧
        (ConnectSocket env self endpoint ipv6 timeoutMs).state.m_socket = none) ∧
      (env.CreateEvent = .ok →
        (∀ e, env.WSACreateEvent = .fail e →
          (ConnectSocket env self endpoint ipv6 timeoutMs).result = env.WSAGetLastHRESULT e ∧
          (ConnectSocket env self endpoint ipv6 timeoutMs).state.m_socket = none) ∧
        (env.WSACreateEvent = .ok →
          (∀ e, env.socket (if ipv6 then AF_INET6 else AF_INET) = .invalid e →
            (ConnectSocket env self endpoint ipv6 timeoutMs).result = HRESULT_FROM_WIN32 e ∧
            (ConnectSocket env self endpoint ipv6 timeoutMs).state.m_socket = none) ∧
          (∀ fd, env.socket (if ipv6 then AF_INET6 else AF_INET) = .handle fd →
            (FAILED env.AttachToThreadpool →
              (ConnectSocket env self endpoint ipv6 timeoutMs).result
                = env.AttachToThreadpool ∧
              (env.closesocket = .ok →
                (ConnectSocket env self endpoint ipv6 timeoutMs).state.m_socket = none)) ∧
            (¬ FAILED env.AttachToThreadpool →
              (∀ e, env.WSAEventSelect = .fail e →
                (ConnectSocket env self endpoint ipv6 timeoutMs).result
                  = HRESULT_FROM_WIN32 e ∧
                (env.closesocket = .ok →
                  (ConnectSocket env self endpoint ipv6 timeoutMs).state.m_socket = none)) ∧
              (env.WSAEventSelect = .ok →
                (∀ e, env.connect = .fail e → e ≠ WSAEWOULDBLOCK →
                  (ConnectSocket env self endpoint ipv6 timeoutMs).result
                    = HRESULT_FROM_WIN32 e ∧
                  (env.closesocket = .ok →
                    (ConnectSocket env self endpoint ipv6 timeoutMs).state.m_socket
                      = none)) ∧
                (env.connect = .fail WSAEWOULDBLOCK →
                  (ConnectSocket env self endpoint ipv6 timeoutMs).result = S_OK ∧
                  (ConnectSocket env self endpoint ipv6 timeoutMs).state.m_socket
                    = some fd))))))) := by
  have hflags : SOCKET_CLOSE_NONE &&& SOCKET_CLOSE_RAISEEVENT = 0 ∧
      SOCKET_CLOSE_JOINTHREAD &&& SOCKET_CLOSE_RAISEEVENT = 0 := by decide
  obtain ⟨hf0, hf2⟩ := hflags
  unfold ConnectSocket
  simp only [hidle]
  cases hP : env.InetPton (if ipv6 then AF_INET6 else AF_INET) endpoint.Address with
  | fail e => simp [callbacks]
  | ok =>
    cases hC : env.CreateEvent with
    | fail e => simp [callbacks]
    | ok =>
      cases hW : env.WSACreateEvent with
      | fail e => simp [callbacks]
      | ok =>
        cases hS : env.socket (if ipv6 then AF_INET6 else AF_INET) with
        | invalid e => simp [callbacks, GetLastErrorAndCloseSocket, CloseSocket]
        | handle fd =>
          by_cases hA : FAILED env.AttachToThreadpool
          · cases hcs : env.closesocket <;> simp [callbacks, CloseSocket, hcs, hf0, hA]
          · cases hE : env.WSAEventSelect with
            | fail e =>
              cases hcs : env.closesocket <;>
                simp [callbacks, GetLastErrorAndCloseSocket, CloseSocket, hcs, hf2, hA]
            | ok =>
              cases hK : env.connect with
              | ok => simp [callbacks, hA]
              | fail e =>
                by_cases he : e = WSAEWOULDBLOCK
                · simp [callbacks, hA, he]
                · cases hcs : env.closesocket <;>
                    simp [callbacks, CloseSocket, hcs, hf2, hA, he]

/-- Claim C10, amended, at concrete inputs: `ConnectSocket` on a fresh object, with `connect`
failing with 10061 (connection refused) while `closesocket` succeeds, then while `closesocket`
fails with 10050, and with `connect` reporting would-block. -/
theorem C10_connect_failures_are_returned_without_callback_witness :
    (callbacks (ConnectSocket { sampleEnv with connect := .fail 10061 } idleSocket
        ⟨"149.154.167.50", 443⟩ false 5000).effects = [] ∧
      (ConnectSocket { sampleEnv with connect := .fail 10061 } idleSocket
        ⟨"149.154.167.50", 443⟩ false 5000).result = HRESULT_FROM_WIN32 10061 ∧
      (ConnectSocket { sampleEnv with connect := .fail 10061 } idleSocket
        ⟨"149.154.167.50", 443⟩ false 5000).state.m_socket = none) ∧
    (callbacks (ConnectSocket
        { sampleEnv with connect := .fail 10061, closesocket := .fail 10050 } idleSocket
        ⟨"149.154.167.50", 443⟩ false 5000).effects = [] ∧
      (ConnectSocket
        { sampleEnv with connect := .fail 10061, closesocket := .fail 10050 } idleSocket
        ⟨"149.154.167.50", 443⟩ false 5000).result = HRESULT_FROM_WIN32 10061) ∧
    ((ConnectSocket sampleEnv idleSocket ⟨"149.154.167.50", 443⟩ false 5000).result = S_OK ∧
      (ConnectSocket sampleEnv idleSocket ⟨"149.154.167.50", 443⟩ false 5000).state.m_socket
        = some 7) :=
  have refused := C10_connect_failures_are_returned_without_callback
    { sampleEnv with connect := .fail 10061 } idleSocket ⟨"149.154.167.50", 443⟩ false 5000
    rfl
  have stuck := C10_connect_failures_are_returned_without_callback
    { sampleEnv with connect := .fail 10061, closesocket := .fail 10050 } idleSocket
    ⟨"149.154.167.50", 443⟩ false 5000 rfl
  have pending := C10_connect_failures_are_returned_without_callback
    sampleEnv idleSocket ⟨"149.154.167.50", 443⟩ false 5000 rfl
  ⟨⟨refused.1,
      (((((((refused.2.2.2 rfl).2 rfl).2 rfl).2 7 rfl).2 (by decide)).2 rfl).1 10061 rfl
        (by decide)).1,
      refused.2.1 rfl (by decide)⟩,
    ⟨stuck.1,
      (((((((stuck.2.2.2 rfl).2 rfl).2 rfl).2 7 rfl).2 (by decide)).2 rfl).1 10061 rfl
        (by decide)).1⟩,
    ((((((pending.2.2.2 rfl).2 rfl).2 rfl).2 7 rfl).2 (by decide)).2 rfl).2 rfl⟩

/-! ## Calls in the wrong state -/

/-- Claim C11.  On an object whose descriptor is allocated, `ConnectSocket`, for every endpoint,
family flag and timeout and whatever the surroundings answer, returns `E_NOT_VALID_STATE`,
leaves every field unchanged (descriptor, stored timeout, send buffer and receive buffer among
them) and has no effect at all, in particular invokes no callback. -/
theorem C11_ConnectSocket_rejected_while_descriptor_allocated (env : Env)
    (self : ConnectionSocket) (fd : Nat) (endpoint : ServerEndpoint) (ipv6 : Bool)
    (timeoutMs : Nat) (hlive : self.m_socket = some fd) :
    ConnectSocket env self endpoint ipv6 timeoutMs = ⟨E_NOT_VALID_STATE, self, []⟩ := by
  simp [ConnectSocket, hlive]

/-- Claim C11 at a concrete input: `ConnectSocket` on the sample connection. -/
theorem C11_ConnectSocket_rejected_while_descriptor_allocated_witness :
    ConnectSocket sampleEnv liveSocket ⟨"149.154.167.50", 443⟩ true 5000
      = ⟨E_NOT_VALID_STATE, liveSocket, []⟩ :=
  C11_ConnectSocket_rejected_while_descriptor_allocated sampleEnv liveSocket 7
    ⟨"149.154.167.50", 443⟩ true 5000 rfl

/-- Claim C12 fails on the code for `ConnectSocket`.  After `Close()` on the sample connection,
a `ConnectSocket` call returns `S_OK`, not `E_NOT_VALID_STATE`, and the object has a descriptor
again, with the wait registered and armed. -/
theorem C12_ConnectSocket_accepted_after_Close :
    (ConnectSocket sampleEnv (Close sampleEnv liveSocket).state
        ⟨"149.154.167.50", 443⟩ false 5000).result = S_OK ∧
    (ConnectSocket sampleEnv (Close sampleEnv liveSocket).state
        ⟨"149.154.167.50", 443⟩ false 5000).state.m_socket = some 7 ∧
    (ConnectSocket sampleEnv (Close sampleEnv liveSocket).state
        ⟨"149.154.167.50", 443⟩ false 5000).effects
      = [Effect.AttachToThreadpool, Effect.SetThreadpoolWait ⟨4244967296, 4294967295⟩] := by
  decide

/-- Claim C12, amended.  On an object without descriptor, as a closed connection is:
`SendData`, `DisconnectSocket` (graceful or immediate) and `Close` return `E_NOT_VALID_STATE`,
change nothing and have no effect, so invoke no callback.  `ConnectSocket` is not rejected: when
the address parses, both events, the socket, the dispatcher registration and the event
selection succeed, and `connect` succeeds or reports would-block, it returns `S_OK`, the object
holds the new descriptor, and the wait is registered and armed. -/
theorem C12_closed_object_rejects_all_but_ConnectSocket (env : Env) (self : ConnectionSocket)
    (hclosed : self.m_socket = none) :
    (∀ buffer : List Nat, SendData env self buffer = some ⟨E_NOT_VALID_STATE, self, []⟩) ∧
    (∀ immediate : Bool,
      DisconnectSocket env self immediate = ⟨E_NOT_VALID_STATE, self, []⟩) ∧
    Close env self = ⟨E_NOT_VALID_STATE, self, []⟩ ∧
    (∀ (endpoint : ServerEndpoint) (ipv6 : Bool) (timeoutMs fd : Nat),
      env.InetPton (if ipv6 then AF_INET6 else AF_INET) endpoint.Address = .ok →
      env.CreateEvent = .ok →
      env.WSACreateEvent = .ok →
      env.socket (if ipv6 then AF_INET6 else AF_INET) = .handle fd →
      ¬ FAILED env.AttachToThreadpool →
      env.WSAEventSelect = .ok →
      (env.connect = .ok ∨ env.connect = .fail WSAEWOULDBLOCK) →
      (ConnectSocket env self endpoint ipv6 timeoutMs).result = S_OK ∧
      (ConnectSocket env self endpoint ipv6 timeoutMs).state.m_socket = some fd ∧
      (ConnectSocket env self endpoint ipv6 timeoutMs).effects
        = [Effect.AttachToThreadpool,
            Effect.SetThreadpoolWait
              (ConnectSocket env self endpoint ipv6 timeoutMs).state.m_timeout]) := by
  refine ⟨?_, ?_, ?_, ?_⟩
  · intro buffer
    simp [SendData, hclosed]
  · intro immediate
    cases immediate <;> simp [DisconnectSocket, CloseSocket, hclosed]
  · simp [Close, CloseSocket, hclosed]
  · intro endpoint ipv6 timeoutMs fd hP hC hW hS hA hE hK
    rcases hK with hK | hK <;>
      simp [ConnectSocket, hclosed, hP, hC, hW, hS, hA, hE, hK]

/-- Claim C12, amended, at a concrete input: the sample connection after `Close()`. -/
theorem C12_closed_object_rejects_all_but_ConnectSocket_witness :
    SendData sampleEnv (Close sampleEnv liveSocket).state [1, 2, 3]
      = some ⟨E_NOT_VALID_STATE, (Close sampleEnv liveSocket).state, []⟩ ∧
    DisconnectSocket sampleEnv (Close sampleEnv liveSocket).state false
      = ⟨E_NOT_VALID_STATE, (Close sampleEnv liveSocket).state, []⟩ ∧
    DisconnectSocket sampleEnv (Close sampleEnv liveSocket).state true
      = ⟨E_NOT_VALID_STATE, (Close sampleEnv liveSocket).state, []⟩ ∧
    Close sampleEnv (Close sampleEnv liveSocket).state
      = ⟨E_NOT_VALID_STATE, (Close sampleEnv liveSocket).state, []⟩ ∧
    (ConnectSocket sampleEnv (Close sampleEnv liveSocket).state
        ⟨"149.154.167.50", 443⟩ false 5000).result = S_OK :=
  have h := C12_closed_object_rejects_all_but_ConnectSocket sampleEnv
    (Close sampleEnv liveSocket).state rfl
  ⟨h.1 [1, 2, 3], h.2.1 false, h.2.1 true, h.2.2.1,
    (h.2.2.2 ⟨"149.154.167.50", 443⟩ false 5000 7 rfl rfl rfl rfl (by decide) rfl
      (Or.inr rfl)).1⟩

/-! ## Immediate, silent and graceful disconnect -/

/-- Claim C13 fails on the code when `closesocket` fails.  On the sample connection with
`closesocket` failing with 10050, both `DisconnectSocket(true)` and `Close()` leave the object
unchanged, descriptor included, and `OnSocketDisconnected` is not invoked. -/
theorem C13_failing_closesocket_prevents_teardown :
    (DisconnectSocket { sampleEnv with closesocket := .fail 10050 } liveSocket true).state
      = liveSocket ∧
    (DisconnectSocket { sampleEnv with closesocket := .fail 10050 } liveSocket true).effects
      = [Effect.closesocket 7] ∧
    (Close { sampleEnv with closesocket := .fail 10050 } liveSocket).state = liveSocket ∧
    (Close { sampleEnv with closesocket := .fail 10050 } liveSocket).effects
      = [Effect.closesocket 7] := by
  decide

/-- Claim C13, amended.  On a live connection whose `closesocket` succeeds, both
`DisconnectSocket(true)` and `Close()` tear the connection down: the descriptor is released,
the send buffer emptied, the receive buffer released, both events closed.
`DisconnectSocket(true)` then invokes `OnSocketDisconnected` exactly once, with `NO_ERROR`, as
its only callback, and returns that callback's result; `Close()` invokes no callback and
returns `S_OK` (and is the one that joins the dispatcher thread). -/
theorem C13_immediate_disconnect_raises_Close_is_silent (env : Env) (self : ConnectionSocket)
    (fd : Nat) (hlive : self.m_socket = some fd) (hclose : env.closesocket = .ok) :
    DisconnectSocket env self true =
      ⟨env.OnSocketDisconnected NO_ERROR,
        { self with
          m_socket := none
          m_socketEvent := false
          m_socketConnectedEvent := none
          m_sendBuffer := []
          m_receiveBuffer := false },
        [Effect.closesocket fd, Effect.DetachFromThreadpool false,
          Effect.OnSocketDisconnected NO_ERROR]⟩ ∧
    Close env self =
      ⟨S_OK,
        { self with
          m_socket := none
          m_socketEvent := false
          m_socketConnectedEvent := none
          m_sendBuffer := []
          m_receiveBuffer := false },
        [Effect.closesocket fd, Effect.DetachFromThreadpool true]⟩ := by
  constructor
  · simp [DisconnectSocket, CloseSocket_raise env self fd NO_ERROR hlive hclose]
  · simp [Close, CloseSocket, hlive, hclose, SOCKET_CLOSE_RAISEEVENT, SOCKET_CLOSE_JOINTHREAD]

/-- Claim C13, amended, at a concrete input: the sample connection with two queued bytes. -/
theorem C13_immediate_disconnect_raises_Close_is_silent_witness :
    DisconnectSocket sampleEnv { liveSocket with m_sendBuffer := [1, 2] } true =
      ⟨sampleEnv.OnSocketDisconnected NO_ERROR,
        { { liveSocket with m_sendBuffer := [1, 2] } with
          m_socket := none
          m_socketEvent := false
          m_socketConnectedEvent := none
          m_sendBuffer := []
          m_receiveBuffer := false },
        [Effect.closesocket 7, Effect.DetachFromThreadpool false,
          Effect.OnSocketDisconnected NO_ERROR]⟩ ∧
    Close sampleEnv { liveSocket with m_sendBuffer := [1, 2] } =
      ⟨S_OK,
        { { liveSocket with m_sendBuffer := [1, 2] } with
          m_socket := none
          m_socketEvent := false
          m_socketConnectedEvent := none
          m_sendBuffer := []
          m_receiveBuffer := false },
        [Effect.closesocket 7, Effect.DetachFromThreadpool true]⟩ :=
  C13_immediate_disconnect_raises_Close_is_silent sampleEnv
    { liveSocket with m_sendBuffer := [1, 2] } 7 rfl rfl

/-- Claim C19.  On a live connection, `DisconnectSocket(false)` calls `shutdown` on the
descriptor and nothing else: whether or not `shutdown` succeeds, every field of the object
(descriptor, send buffer, receive buffer, connect event and timeout among them) is unchanged
and no callback is invoked.  It returns `S_OK` when `shutdown` succeeds and the `HRESULT` of the
shutdown error otherwise; so, the helper turning an error into a failure code, it returns
`S_OK` exactly when `shutdown` succeeds. -/
theorem C19_graceful_disconnect_only_shuts_down (env : Env) (self : ConnectionSocket)
    (fd : Nat) (hlive : self.m_socket = some fd) :
    (DisconnectSocket env self false).state = self ∧
    (DisconnectSocket env self false).effects = [Effect.shutdown fd] ∧
    callbacks (DisconnectSocket env self false).effects = [] ∧
    (env.shutdown = .ok → (DisconnectSocket env self false).result = S_OK) ∧
    (∀ e, env.shutdown = .fail e →
      (DisconnectSocket env self false).result = env.WSAGetLastHRESULT e) ∧
    ((∀ e, FAILED (env.WSAGetLastHRESULT e)) →
      ((DisconnectSocket env self false).result = S_OK ↔ env.shutdown = .ok)) := by
  cases h : env.shutdown with
  | ok => simp [DisconnectSocket, hlive, h, callbacks]
  | fail e =>
    have hne : ∀ x : Int, FAILED x → x ≠ S_OK := by
      intro x hx; unfold FAILED at hx; unfold S_OK; omega
    have hres : DisconnectSocket env self false
        = ⟨env.WSAGetLastHRESULT e, self, [Effect.shutdown fd]⟩ := by
      simp [DisconnectSocket, hlive, h]
    rw [hres]
    refine ⟨rfl, rfl, rfl, ?_, ?_, ?_⟩
    · intro h1; cases h1
    · intro e1 h1; cases h1; rfl
    · intro hf
      constructor
      · intro hr; exact absurd hr (hne _ (hf e))
      · intro h1; cases h1

/-- Claim C19 at a concrete input: the sample connection with two queued bytes, `shutdown`
succeeding. -/
theorem C19_graceful_disconnect_only_shuts_down_witness :
    (DisconnectSocket sampleEnv { liveSocket with m_sendBuffer := [1, 2] } false).state
      = { liveSocket with m_sendBuffer := [1, 2] } ∧
    (DisconnectSocket sampleEnv { liveSocket with m_sendBuffer := [1, 2] } false).effects
      = [Effect.shutdown 7] ∧
    (DisconnectSocket sampleEnv { liveSocket with m_sendBuffer := [1, 2] } false).result
      = S_OK :=
  have h := C19_graceful_disconnect_only_shuts_down sampleEnv
    { liveSocket with m_sendBuffer := [1, 2] } 7 rfl
  ⟨h.1, h.2.1, h.2.2.2.1 rfl⟩

/-! ## The stored timeout -/

/-- Whatever happens afterwards, `ConnectSocket` on an object without descriptor leaves in
`m_timeout` the two halves of `timeoutMs * -10000LL` stored as an unsigned 64-bit value. -/
theorem ConnectSocket_m_timeout (env : Env) (self : ConnectionSocket)
    (endpoint : ServerEndpoint) (ipv6 : Bool) (timeoutMs : Nat) (hidle : self.m_socket = none) :
    (ConnectSocket env self endpoint ipv6 timeoutMs).state.m_timeout =
      ⟨(((timeoutMs : Int) * (-10000)) % 2 ^ 64).toNat % 2 ^ 32,
        (((timeoutMs : Int) * (-10000)) % 2 ^ 64).toNat / 2 ^ 32⟩ := by
  unfold ConnectSocket
  simp only [hidle]
  cases env.InetPton (if ipv6 then AF_INET6 else AF_INET) endpoint.Address with
  | fail e => rfl
  | ok =>
    cases env.CreateEvent with
    | fail e => rfl
    | ok =>
      cases env.WSACreateEvent with
      | fail e => rfl
      | ok =>
        cases env.socket (if ipv6 then AF_INET6 else AF_INET) with
        | invalid e => simp [GetLastErrorAndCloseSocket, CloseSocket_m_timeout]
        | handle fd =>
          by_cases hA : FAILED env.AttachToThreadpool
          · simp [hA, CloseSocket_m_timeout]
          · cases env.WSAEventSelect with
            | fail e => simp [hA, GetLastErrorAndCloseSocket, CloseSocket_m_timeout]
            | ok =>
              cases env.connect with
              | ok => simp [hA]
              | fail e =>
                by_cases he : e = WSAEWOULDBLOCK
                · simp [hA, he]
                · simp [hA, he, CloseSocket_m_timeout]

/-- The unsigned 64-bit value of `timeoutMs * -10000LL` for a 32-bit `timeoutMs`. -/
theorem quadPart_of_timeoutMs (timeoutMs : Nat) (h32 : timeoutMs < 4294967296) :
    (((timeoutMs : Int) * (-10000)) % 18446744073709551616).toNat
      = (18446744073709551616 - 10000 * timeoutMs) % 18446744073709551616 := by
  rcases Nat.eq_zero_or_pos timeoutMs with h0 | hpos
  · subst h0; rfl
  · have h1 : ((timeoutMs : Int) * (-10000)) % 18446744073709551616
        = 18446744073709551616 - 10000 * (timeoutMs : Int) := by
      rw [← Int.add_emod_self]
      rw [Int.emod_eq_of_lt (by omega) (by omega)]
      omega
    have h2 : (18446744073709551616 - 10000 * timeoutMs) % 18446744073709551616
        = 18446744073709551616 - 10000 * timeoutMs :=
      Nat.mod_eq_of_lt (by omega)
    rw [h1, h2]
    omega

/-- Claim C18.  For every `timeoutMs` below `2 ^ 32`, the timeout that `ConnectSocket` stores
(on an object without descriptor, whatever happens later in the call) has both halves below
`2 ^ 32`; its 64-bit value, high dword first, read as a signed 64-bit integer is exactly
`-10000 * timeoutMs`, a product that lies within the signed 64-bit range; as an unsigned value
it is `(2 ^ 64 - 10000 * timeoutMs) mod 2 ^ 64`, which is `0` for `timeoutMs = 0`. -/
theorem C18_stored_timeout_is_minus_10000_times_timeoutMs (env : Env)
    (self : ConnectionSocket) (endpoint : ServerEndpoint) (ipv6 : Bool) (timeoutMs : Nat)
    (hidle : self.m_socket = none) (h32 : timeoutMs < 2 ^ 32) :
    (ConnectSocket env self endpoint ipv6 timeoutMs).state.m_timeout.dwLowDateTime < 2 ^ 32 ∧
    (ConnectSocket env self endpoint ipv6 timeoutMs).state.m_timeout.dwHighDateTime < 2 ^ 32 ∧
    asInt64 (ConnectSocket env self endpoint ipv6 timeoutMs).state.m_timeout.quadPart
      = -10000 * (timeoutMs : Int) ∧
    -(2 : Int) ^ 63 ≤ -10000 * (timeoutMs : Int) ∧
    (ConnectSocket env self endpoint ipv6 timeoutMs).state.m_timeout.quadPart
      = (2 ^ 64 - 10000 * timeoutMs) % 2 ^ 64 ∧
    (timeoutMs = 0 →
      (ConnectSocket env self endpoint ipv6 timeoutMs).state.m_timeout.quadPart = 0) := by
  rw [ConnectSocket_m_timeout env self endpoint ipv6 timeoutMs hidle]
  simp only [FILETIME.quadPart, asInt64, Nat.reducePow, Int.reducePow] at h32 ⊢
  rw [quadPart_of_timeoutMs timeoutMs h32]
  have hle : 10000 * timeoutMs ≤ 42949672950000 := by omega
  generalize hv : (18446744073709551616 - 10000 * timeoutMs) % 18446744073709551616 = q
  have hq : q = 0 ∧ timeoutMs = 0 ∨
      0 < timeoutMs ∧ q + 10000 * timeoutMs = 18446744073709551616 := by
    rcases Nat.eq_zero_or_pos timeoutMs with h0 | hpos
    · left; subst h0; exact ⟨hv.symm, rfl⟩
    · right
      rw [Nat.mod_eq_of_lt (by omega)] at hv
      exact ⟨hpos, by omega⟩
  have hdm : q / 4294967296 * 4294967296 + q % 4294967296 = q := Nat.div_add_mod' q 4294967296
  have hlt : q < 18446744073709551616 := by omega
  rw [hdm]
  refine ⟨Nat.mod_lt _ (by decide), ?_, ?_, ?_, ?_, ?_⟩
  · exact Nat.div_lt_of_lt_mul (by omega)
  · split <;> omega
  · omega
  · rfl
  · omega

/-- Claim C18 at a concrete input: a timeout of 5000 ms on a fresh object. -/
theorem C18_stored_timeout_is_minus_10000_times_timeoutMs_witness :
    asInt64 (ConnectSocket sampleEnv idleSocket ⟨"149.154.167.50", 443⟩ false
      5000).state.m_timeout.quadPart = -10000 * ((5000 : Nat) : Int) :=
  (C18_stored_timeout_is_minus_10000_times_timeoutMs sampleEnv idleSocket
    ⟨"149.154.167.50", 443⟩ false 5000 rfl (by decide)).2.2.1

/-! ## A signalled wait without readiness bit -/

/-- Claim C16 fails on the code.  A signalled handler invocation on the sample connection whose
enumerated network events have no bit set returns `S_OK`, leaves the object unchanged and only
re-arms the wait: the connection is not closed and `OnSocketDisconnected` is not invoked. -/
theorem C16_spurious_wake_is_not_a_timeout :
    OnEvent { sampleEnv with WSAEnumNetworkEvents := .ok ⟨0, fun _ => NO_ERROR⟩ }
        liveSocket WAIT_OBJECT_0
      = ⟨S_OK, liveSocket, [Effect.SetThreadpoolWait liveSocket.m_timeout]⟩ := by
  decide

/-- Claim C16, amended.  On a live connection, a signalled handler invocation whose enumerated
network events have none of the connect, read, write and close bits set is not treated as a
timeout: the object is unchanged and keeps its descriptor, no callback is invoked, the wait is
re-armed once with the stored timeout, and the handler returns `S_OK`. -/
theorem C16_spurious_wake_only_rearms (env : Env) (self : ConnectionSocket) (fd : Nat)
    (ne : WSANETWORKEVENTS)
    (hlive : self.m_socket = some fd)
    (henum : env.WSAEnumNetworkEvents = .ok ne)
    (hconnect : ne.lNetworkEvents &&& FD_CONNECT = 0)
    (hread : ne.lNetworkEvents &&& FD_READ = 0)
    (hwrite : ne.lNetworkEvents &&& FD_WRITE = 0)
    (hclose : ne.lNetworkEvents &&& FD_CLOSE = 0) :
    OnEvent env self WAIT_OBJECT_0
      = ⟨S_OK, self, [Effect.SetThreadpoolWait self.m_timeout]⟩ := by
  simp [OnEvent, hlive, henum, hclose, connectStep, hconnect, writeStep, hwrite, readStep,
    hread, Step.andThen, Step.after, finish]

/-- Claim C16, amended, at a concrete input: the sample connection with `lNetworkEvents = 0`. -/
theorem C16_spurious_wake_only_rearms_witness :
    OnEvent sampleEnv liveSocket WAIT_OBJECT_0
      = ⟨S_OK, liveSocket, [Effect.SetThreadpoolWait liveSocket.m_timeout]⟩ :=
  C16_spurious_wake_only_rearms sampleEnv liveSocket 7 ⟨0, fun _ => NO_ERROR⟩ rfl rfl
    (by decide) (by decide) (by decide) (by decide)

/-! ## The handler: close or re-arm, connect completion, close notification -/

/-- Claim C15 fails on the code when `closesocket` fails.  A read-ready event with error code
10054 on the sample connection while `closesocket` fails with 10050: the handler returns
`HRESULT_FROM_WIN32(10054)`, a failure, the object is unchanged and keeps its descriptor, and
the wait is not re-armed.  The connection is neither closed nor re-armed. -/
theorem C15_failing_closesocket_neither_closes_nor_rearms :
    (OnEvent { sampleEnv with
               closesocket := .fail 10050
               WSAEnumNetworkEvents := .ok ⟨FD_READ, fun _ => 10054⟩ }
        liveSocket WAIT_OBJECT_0).state = liveSocket ∧
    rearms (OnEvent { sampleEnv with
               closesocket := .fail 10050
               WSAEnumNetworkEvents := .ok ⟨FD_READ, fun _ => 10054⟩ }
        liveSocket WAIT_OBJECT_0).effects = [] ∧
    (OnEvent { sampleEnv with
               closesocket := .fail 10050
               WSAEnumNetworkEvents := .ok ⟨FD_READ, fun _ => 10054⟩ }
        liveSocket WAIT_OBJECT_0).result = HRESULT_FROM_WIN32 10054 ∧
    FAILED (HRESULT_FROM_WIN32 10054) := by
  decide

/-- Claim C15, amended.  For every handler invocation on a live connection whose `closesocket`
succeeds, exactly one of the following holds on return: (a) the descriptor is released and the
wait was not re-armed, or (b) the object still holds its descriptor and its timeout, the
handler returned `S_OK`, and the wait was re-armed exactly once, with the stored timeout.  A
handler invocation on an object without descriptor never re-arms. -/
theorem C15_handler_closes_or_rearms_once (env : Env) (self : ConnectionSocket) (fd : Nat)
    (waitResult : Nat) (hlive : self.m_socket = some fd) (hclose : env.closesocket = .ok) :
    (((OnEvent env self waitResult).state.m_socket = none ∧
        rearms (OnEvent env self waitResult).effects = []) ∨
      ((OnEvent env self waitResult).state.m_socket = some fd ∧
        (OnEvent env self waitResult).state.m_timeout = self.m_timeout ∧
        (OnEvent env self waitResult).result = S_OK ∧
        rearms (OnEvent env self waitResult).effects = [self.m_timeout])) ∧
    ¬ (((OnEvent env self waitResult).state.m_socket = none ∧
        rearms (OnEvent env self waitResult).effects = []) ∧
      ((OnEvent env self waitResult).state.m_socket = some fd ∧
        (OnEvent env self waitResult).state.m_timeout = self.m_timeout ∧
        (OnEvent env self waitResult).result = S_OK ∧
        rearms (OnEvent env self waitResult).effects = [self.m_timeout])) ∧
    (∀ (later : Env) (closed : ConnectionSocket) (laterWait : Nat),
      closed.m_socket = none → rearms (OnEvent later closed laterWait).effects = []) := by
  refine ⟨?_, ?_, ?_⟩
  · by_cases hw : waitResult = WAIT_OBJECT_0
    · cases henum : env.WSAEnumNetworkEvents with
      | fail e =>
        left
        simp [OnEvent, hw, hlive, henum, GetLastErrorAndCloseSocket,
          CloseSocket_raise env self fd e hlive hclose, rearms]
      | ok ne =>
        by_cases hbit : ne.lNetworkEvents &&& FD_CLOSE = 0
        · have h := finish_tame env _ fd self.m_timeout
            (blocks_tame env ne self fd hlive hclose) hclose
          simpa [OnEvent, hw, hlive, henum, hbit] using h
        · left
          simp [OnEvent, hw, hlive, henum, hbit,
            CloseSocket_raise env self fd _ hlive hclose, rearms]
    · left
      simp [OnEvent, hw, CloseSocket_raise env self fd _ hlive hclose, rearms]
  · rintro ⟨⟨h1, -⟩, ⟨h2, -⟩⟩
    rw [h1] at h2
    cases h2
  · intro later closed laterWait hc
    by_cases hw : laterWait = WAIT_OBJECT_0
    · simp [OnEvent, hw, hc, rearms]
    · simp [OnEvent, hw, CloseSocket, hc, rearms]

/-- Claim C15, amended, at concrete inputs: on the sample connection, a signalled invocation
without events re-arms once, and an invocation with wait result 258 releases the descriptor
without re-arming. -/
theorem C15_handler_closes_or_rearms_once_witness :
    (((OnEvent sampleEnv liveSocket WAIT_OBJECT_0).state.m_socket = none ∧
        rearms (OnEvent sampleEnv liveSocket WAIT_OBJECT_0).effects = []) ∨
      ((OnEvent sampleEnv liveSocket WAIT_OBJECT_0).state.m_socket = some 7 ∧
        (OnEvent sampleEnv liveSocket WAIT_OBJECT_0).state.m_timeout = liveSocket.m_timeout ∧
        (OnEvent sampleEnv liveSocket WAIT_OBJECT_0).result = S_OK ∧
        rearms (OnEvent sampleEnv liveSocket WAIT_OBJECT_0).effects
          = [liveSocket.m_timeout])) ∧
    (((OnEvent sampleEnv liveSocket 258).state.m_socket = none ∧
        rearms (OnEvent sampleEnv liveSocket 258).effects = []) ∨
      ((OnEvent sampleEnv liveSocket 258).state.m_socket = some 7 ∧
        (OnEvent sampleEnv liveSocket 258).state.m_timeout = liveSocket.m_timeout ∧
        (OnEvent sampleEnv liveSocket 258).result = S_OK ∧
        rearms (OnEvent sampleEnv liveSocket 258).effects = [liveSocket.m_timeout])) :=
  ⟨(C15_handler_closes_or_rearms_once sampleEnv liveSocket 7 WAIT_OBJECT_0 rfl rfl).1,
    (C15_handler_closes_or_rearms_once sampleEnv liveSocket 7 258 rfl rfl).1⟩

/-- Claim C17 fails on the code when `closesocket` fails.  A connect event with error code
10061 (connection refused) on the sample connection while `closesocket` fails with 10050: the
handler returns `HRESULT_FROM_WIN32(10061)`, but the object is unchanged and keeps its
descriptor, and `OnSocketDisconnected` is not invoked. -/
theorem C17_connect_error_with_failing_closesocket_stays_open :
    OnEvent { sampleEnv with
              closesocket := .fail 10050
              WSAEnumNetworkEvents := .ok ⟨FD_CONNECT, fun _ => 10061⟩ }
        liveSocket WAIT_OBJECT_0
      = ⟨HRESULT_FROM_WIN32 10061, liveSocket, [Effect.closesocket 7]⟩ := by
  decide

/-- Claim C17, amended.  Take a live connection and a signalled event batch with the connect
bit set and no close bit.
* With a non-zero connect error code `e`: the handler returns `HRESULT_FROM_WIN32(e)`, does not
  signal the connect event, does not invoke `OnSocketConnected`, and sends and receives nothing.
  When moreover `closesocket` succeeds, it tears the connection down, and its only effects are
  the `closesocket` call, the detach from the dispatcher and one `OnSocketDisconnected(e)`.
* With a zero connect error code: the first two effects are the signalling of the connect
  event and one `OnSocketConnected` call, in that order, and neither happens again among the
  effects that follow, which hold all write and read handling. -/
theorem C17_connect_completion (env : Env) (self : ConnectionSocket) (fd : Nat)
    (ne : WSANETWORKEVENTS)
    (hlive : self.m_socket = some fd)
    (henum : env.WSAEnumNetworkEvents = .ok ne)
    (hclosebit : ne.lNetworkEvents &&& FD_CLOSE = 0)
    (hconnectbit : ne.lNetworkEvents &&& FD_CONNECT ≠ 0) :
    (ne.iErrorCode FD_CONNECT_BIT ≠ NO_ERROR →
      (OnEvent env self WAIT_OBJECT_0).result
        = HRESULT_FROM_WIN32 (ne.iErrorCode FD_CONNECT_BIT) ∧
      gateEffects (OnEvent env self WAIT_OBJECT_0).effects = [] ∧
      transfers (OnEvent env self WAIT_OBJECT_0).effects = [] ∧
      (env.closesocket = .ok →
        OnEvent env self WAIT_OBJECT_0 =
          ⟨HRESULT_FROM_WIN32 (ne.iErrorCode FD_CONNECT_BIT),
            { self with
              m_socket := none
              m_socketEvent := false
              m_socketConnectedEvent := none
              m_sendBuffer := []
              m_receiveBuffer := false },
            [Effect.closesocket fd, Effect.DetachFromThreadpool false,
              Effect.OnSocketDisconnected (ne.iErrorCode FD_CONNECT_BIT)]⟩)) ∧
    (ne.iErrorCode FD_CONNECT_BIT = NO_ERROR →
      ∃ rest, (OnEvent env self WAIT_OBJECT_0).effects
          = Effect.SetEvent :: Effect.OnSocketConnected :: rest ∧
        gateEffects rest = []) := by
  constructor
  · intro herr
    have hev : OnEvent env self WAIT_OBJECT_0 =
        ⟨HRESULT_FROM_WIN32 (ne.iErrorCode FD_CONNECT_BIT),
          (CloseSocket env self (ne.iErrorCode FD_CONNECT_BIT) SOCKET_CLOSE_RAISEEVENT).state,
          (CloseSocket env self (ne.iErrorCode FD_CONNECT_BIT)
            SOCKET_CLOSE_RAISEEVENT).effects⟩ := by
      simp [OnEvent, hlive, henum, hclosebit, connectStep, hconnectbit, herr, Step.andThen,
        finish]
    rw [hev]
    refine ⟨rfl, CloseSocket_gateEffects _ _ _ _, CloseSocket_transfers _ _ _ _, ?_⟩
    intro hclose
    rw [CloseSocket_raise env self fd _ hlive hclose]
  · intro herr
    by_cases hfail : FAILED env.OnSocketConnected
    · refine ⟨_, ?_, CloseSocket_gateEffects env
        { self with m_socketConnectedEvent := self.m_socketConnectedEvent.map fun _ => true }
        (env.WIN32_FROM_HRESULT env.OnSocketConnected) SOCKET_CLOSE_RAISEEVENT⟩
      simp [OnEvent, hlive, henum, hclosebit, connectStep, hconnectbit, herr, hfail,
        Step.andThen, finish]
    · refine ⟨_, ?_, after_connect_gateEffects env ne
        { self with m_socketConnectedEvent := self.m_socketConnectedEvent.map fun _ => true }⟩
      have hc : connectStep env ne self =
          .next { self with
                  m_socketConnectedEvent := self.m_socketConnectedEvent.map fun _ => true }
            [Effect.SetEvent, Effect.OnSocketConnected] := by
        simp [connectStep, hconnectbit, herr, hfail]
      simp only [OnEvent, ne_eq, not_true_eq_false, if_false, hlive, henum, hclosebit, hc,
        Step.next_andThen, Step.after_andThen, finish_after]
      rfl

/-- Claim C17, amended, at concrete inputs: on the sample connection, a connect event with
error code 10061, and a connect event without error code. -/
theorem C17_connect_completion_witness :
    OnEvent { sampleEnv with WSAEnumNetworkEvents := .ok ⟨FD_CONNECT, fun _ => 10061⟩ }
        liveSocket WAIT_OBJECT_0 =
      ⟨HRESULT_FROM_WIN32 10061,
        { liveSocket with
          m_socket := none
          m_socketEvent := false
          m_socketConnectedEvent := none
          m_sendBuffer := []
          m_receiveBuffer := false },
        [Effect.closesocket 7, Effect.DetachFromThreadpool false,
          Effect.OnSocketDisconnected 10061]⟩ ∧
    ∃ rest, (OnEvent { sampleEnv with
                       WSAEnumNetworkEvents := .ok ⟨FD_CONNECT, fun _ => NO_ERROR⟩ }
        liveSocket WAIT_OBJECT_0).effects
          = Effect.SetEvent :: Effect.OnSocketConnected :: rest ∧
        gateEffects rest = [] :=
  ⟨(C17_connect_completion
      { sampleEnv with WSAEnumNetworkEvents := .ok ⟨FD_CONNECT, fun _ => 10061⟩ }
      liveSocket 7 ⟨FD_CONNECT, fun _ => 10061⟩ rfl rfl (by decide) (by decide)).1
      (by decide) |>.2.2.2 rfl,
    (C17_connect_completion
      { sampleEnv with WSAEnumNetworkEvents := .ok ⟨FD_CONNECT, fun _ => NO_ERROR⟩ }
      liveSocket 7 ⟨FD_CONNECT, fun _ => NO_ERROR⟩ rfl rfl (by decide) (by decide)).2 rfl⟩

/-- Claim C20 fails on the code when `closesocket` fails.  A batch with the close and read bits
on the sample connection while `closesocket` fails with 10050: the object is unchanged and
keeps its descriptor, and no callback is invoked; the only effect is the `closesocket` call. -/
theorem C20_close_bit_with_failing_closesocket_stays_open :
    (OnEvent { sampleEnv with
               closesocket := .fail 10050
               recv := [.bytes [1, 2]]
               WSAEnumNetworkEvents := .ok ⟨FD_CLOSE ||| FD_READ, fun _ => NO_ERROR⟩ }
        liveSocket WAIT_OBJECT_0).state = liveSocket ∧
    (OnEvent { sampleEnv with
               closesocket := .fail 10050
               recv := [.bytes [1, 2]]
               WSAEnumNetworkEvents := .ok ⟨FD_CLOSE ||| FD_READ, fun _ => NO_ERROR⟩ }
        liveSocket WAIT_OBJECT_0).effects = [Effect.closesocket 7] := by
  decide

/-- Claim C20, amended.  On a live connection, for every signalled event batch with the close
bit set, whatever other bits it holds, the handler sends and receives nothing, does not signal
the connect event, and invokes neither `OnSocketConnected` nor `OnDataReceived`.  When moreover
`closesocket` succeeds, it tears the connection down and returns the result of
`OnSocketDisconnected`; its only effects are the `closesocket` call, the detach from
the dispatcher and one `OnSocketDisconnected` with the error code recorded for the close
bit. -/
theorem C20_close_bit_tears_down_before_anything_else (env : Env) (self : ConnectionSocket)
    (fd : Nat) (ne : WSANETWORKEVENTS)
    (hlive : self.m_socket = some fd)
    (henum : env.WSAEnumNetworkEvents = .ok ne)
    (hclosebit : ne.lNetworkEvents &&& FD_CLOSE ≠ 0) :
    transfers (OnEvent env self WAIT_OBJECT_0).effects = [] ∧
    gateEffects (OnEvent env self WAIT_OBJECT_0).effects = [] ∧
    deliveredChunks (OnEvent env self WAIT_OBJECT_0).effects = [] ∧
    (env.closesocket = .ok →
      OnEvent env self WAIT_OBJECT_0 =
        ⟨env.OnSocketDisconnected (ne.iErrorCode FD_CLOSE_BIT),
          { self with
            m_socket := none
            m_socketEvent := false
            m_socketConnectedEvent := none
            m_sendBuffer := []
            m_receiveBuffer := false },
          [Effect.closesocket fd, Effect.DetachFromThreadpool false,
            Effect.OnSocketDisconnected (ne.iErrorCode FD_CLOSE_BIT)]⟩ ∧
      callbacks (OnEvent env self WAIT_OBJECT_0).effects
        = [Effect.OnSocketDisconnected (ne.iErrorCode FD_CLOSE_BIT)]) := by
  have h : OnEvent env self WAIT_OBJECT_0 =
      CloseSocket env self (ne.iErrorCode FD_CLOSE_BIT) SOCKET_CLOSE_RAISEEVENT := by
    simp [OnEvent, hlive, henum, hclosebit]
  rw [h]
  refine ⟨CloseSocket_transfers _ _ _ _, CloseSocket_gateEffects _ _ _ _,
    CloseSocket_deliveredChunks _ _ _ _, ?_⟩
  intro hclose
  rw [CloseSocket_raise env self fd _ hlive hclose]
  exact ⟨rfl, rfl⟩

/-- Claim C20, amended, at a concrete input: the sample connection, a batch with the close,
connect, write and read bits, data readable, error code 10054 recorded for the close bit. -/
theorem C20_close_bit_tears_down_before_anything_else_witness :
    callbacks (OnEvent
        { sampleEnv with
          recv := [.bytes [1, 2]]
          WSAEnumNetworkEvents :=
            .ok ⟨FD_CLOSE ||| FD_CONNECT ||| FD_WRITE ||| FD_READ,
              fun i => if i = FD_CLOSE_BIT then 10054 else NO_ERROR⟩ }
        { liveSocket with m_sendBuffer := [5] } WAIT_OBJECT_0).effects
      = [Effect.OnSocketDisconnected 10054] ∧
    transfers (OnEvent
        { sampleEnv with
          recv := [.bytes [1, 2]]
          WSAEnumNetworkEvents :=
            .ok ⟨FD_CLOSE ||| FD_CONNECT ||| FD_WRITE ||| FD_READ,
              fun i => if i = FD_CLOSE_BIT then 10054 else NO_ERROR⟩ }
        { liveSocket with m_sendBuffer := [5] } WAIT_OBJECT_0).effects = [] :=
  have h := C20_close_bit_tears_down_before_anything_else
    { sampleEnv with
      recv := [.bytes [1, 2]]
      WSAEnumNetworkEvents :=
        .ok ⟨FD_CLOSE ||| FD_CONNECT ||| FD_WRITE ||| FD_READ,
          fun i => if i = FD_CLOSE_BIT then 10054 else NO_ERROR⟩ }
    { liveSocket with m_sendBuffer := [5] } 7
    ⟨FD_CLOSE ||| FD_CONNECT ||| FD_WRITE ||| FD_READ,
      fun i => if i = FD_CLOSE_BIT then 10054 else NO_ERROR⟩ rfl rfl (by decide)
  ⟨(h.2.2.2 rfl).2, h.1⟩

end Telegram.Api.Native
